import Mathlib

/-!
# AetherDB wire-protocol schema: a verification development

This file embeds the data model of the `aether-protocol` crate
(`src/types.rs`, `src/request.rs`, `src/response.rs`) and the codec
contract of its specification (§4.3 canonical binary encoding, §6.2
structural JSON form), and proves the round-trip, discriminant,
bound-enforcement and distinction properties stated in the spec.

Modelling conventions:
* `HashMap` values are modelled by their (deterministic) iteration
  sequence, a list of key/value pairs; encoding a map encodes that
  sequence (spec §4.3 rule 5: iteration order is implementation-defined
  but deterministic per instance).
* `f64` payloads are modelled by their IEEE-754 bit pattern, a natural
  number below `2^64`; the codecs move the 8 bytes verbatim (spec §4.3
  rule 8), and equality of bit patterns is structural.
* Strings are modelled as length-prefixed sequences of Unicode scalar
  values, each scalar carried in 4 little-endian bytes; this abstracts
  spec §4.3 rule 6 ("length-prefixed sequence of valid UTF-8 bytes"),
  UTF-8 being a bijection between valid byte sequences and scalar
  sequences.
* Machine integers (`u64`, `usize`) are modelled as `Nat`; the
  well-formedness predicates below confine values to the machine range,
  which every Rust value inhabits by construction.
-/

namespace Aether

/-! ## Data model

`Json` models `serde_json::Value`, which is external to the repository.
Modelled from the spec (§3.1): null, boolean, signed-or-unsigned
integer, IEEE-754 double, string, ordered array, string-keyed map. -/

inductive Json where
  | null : Json
  | bool (b : Bool) : Json
  | int (n : Int) : Json
  | double (bits : Nat) : Json
  | str (s : String) : Json
  | arr (items : List Json) : Json
  | obj (entries : List (String × Json)) : Json
deriving Repr

/-- `src/types.rs` line 12: `pub type Record = HashMap<String, Value>;`
modelled by the map's iteration sequence. -/
abbrev Record := List (String × Json)

/-- `src/types.rs` lines 15–18. -/
structure RecordSet where
  records : List Record
deriving Repr

/-- `src/types.rs` lines 21–30: the recursive filter union.
`f64` payloads carry the IEEE-754 bit pattern. -/
inductive Filter where
  | Equals (field : String) (value : Json) : Filter
  | NotEquals (field : String) (value : Json) : Filter
  | GreaterThan (field : String) (value : Nat) : Filter
  | LessThan (field : String) (value : Nat) : Filter
  | In (field : String) (values : List Json) : Filter
  | And (filters : List Filter) : Filter
  | Or (filters : List Filter) : Filter
deriving Repr

/-- `src/types.rs` lines 41–45. -/
inductive Direction where
  | Asc : Direction
  | Desc : Direction
deriving Repr, DecidableEq

/-- `src/types.rs` lines 33–38. -/
structure QueryOptions where
  sort_by : Option (String × Direction)
  limit : Option Nat
  offset : Option Nat
deriving Repr

/-- `src/types.rs` lines 48–52. -/
structure DbStats where
  collection_count : Nat
  record_count : Nat
deriving Repr

/-- `src/types.rs` lines 55–58: as declared in the source, each entry
value is a *pair* `(Collection, Record ID)`. -/
structure BatchRequest where
  requests : List (String × (String × String))
deriving Repr

/-- `src/types.rs` lines 61–64. -/
structure BatchResponse where
  results : List (String × Option Record)
deriving Repr

/-- `src/request.rs` lines 11–57: the 21 request variants, in
declaration order. -/
inductive Request where
  | CreateDatabase (db_name : String) : Request
  | DropDatabase (db_name : String) : Request
  | ListDatabases : Request
  | ListCollections : Request
  | CreateCollection (db_name : String) (collection_name : String) : Request
  | DropCollection (db_name : String) (collection_name : String) : Request
  | GetStats : Request
  | Flush : Request
  | CreateIndex (db_name : String) (collection : String) (field_name : String) : Request
  | DropIndex (db_name : String) (collection : String) (field_name : String) : Request
  | ListIndexes (db_name : String) (collection : String) : Request
  | CreateRecord (db_name : String) (collection : String) (record_id : String) (data : Record) : Request
  | UpdateRecord (db_name : String) (collection : String) (record_id : String) (data : Record) : Request
  | UpsertRecord (db_name : String) (collection : String) (record_id : String) (data : Record) : Request
  | GetRecord (db_name : String) (collection : String) (record_id : String) : Request
  | DeleteRecord (db_name : String) (collection : String) (record_id : String) (cascade : Bool) : Request
  | GetLastInsertId : Request
  | FindRecords (db_name : String) (collection : String) (filter : Filter) (options : Option QueryOptions) : Request
  | CountRecords (db_name : String) (collection : String) (filter : Filter) : Request
  | GetRecordWithRelated (db_name : String) (primary_collection : String) (primary_record_id : String) (relation_key_field : String) (related_collection : String) : Request
  | ExecuteBatchGet (batch : BatchRequest) : Request
deriving Repr

/-- `src/response.rs` lines 10–14. -/
structure QueryMetrics where
  execution_time_micros : Nat
deriving Repr

/-- `src/response.rs` lines 17–48: the 17 response variants, in
declaration order; `Box<Response>` is an indirection erased by the
embedding. -/
inductive Response where
  | Success : Response
  | Error (msg : String) : Response
  | DatabaseList (names : List String) : Response
  | DatabaseCreated (created : Bool) : Response
  | DatabaseDropped (dropped : Bool) : Response
  | CollectionList (names : List String) : Response
  | Stats (stats : DbStats) : Response
  | IndexList (names : List String) : Response
  | Record (record : Option Record) : Response
  | RecordSet (set : RecordSet) : Response
  | RecordCount (count : Nat) : Response
  | RecordDeleted (deleted : Bool) : Response
  | LastInsertId (id : Nat) : Response
  | RecordWithRelated (pair : Option (Record × Record)) : Response
  | BatchResponse (batch : BatchResponse) : Response
  | RecordIdSet (ids : List String) : Response
  | ResultMetrics (data : Response) (metrics : QueryMetrics) : Response
deriving Repr

/-! ## Byte-level primitives of the canonical binary encoding (spec §4.3)

Bytes are naturals below 256; a message is a `List Nat`. -/

/-- Fixed-width little-endian `u64` (spec §4.3 rule 8). -/
def encU64 (n : Nat) : List Nat :=
  [n % 256, n / 256 % 256, n / 256 ^ 2 % 256, n / 256 ^ 3 % 256,
   n / 256 ^ 4 % 256, n / 256 ^ 5 % 256, n / 256 ^ 6 % 256, n / 256 ^ 7 % 256]

def decU64 : List Nat → Option (Nat × List Nat)
  | b0 :: b1 :: b2 :: b3 :: b4 :: b5 :: b6 :: b7 :: rest =>
      some (b0 + 256 * b1 + 256 ^ 2 * b2 + 256 ^ 3 * b3 + 256 ^ 4 * b4
              + 256 ^ 5 * b5 + 256 ^ 6 * b6 + 256 ^ 7 * b7, rest)
  | _ => none

/-- Fixed-width little-endian `u32`, the width `bincode` gives enum
discriminants. -/
def encU32 (n : Nat) : List Nat :=
  [n % 256, n / 256 % 256, n / 256 ^ 2 % 256, n / 256 ^ 3 % 256]

def decU32 : List Nat → Option (Nat × List Nat)
  | b0 :: b1 :: b2 :: b3 :: rest =>
      some (b0 + 256 * b1 + 256 ^ 2 * b2 + 256 ^ 3 * b3, rest)
  | _ => none

/-- Two's-complement fixed-width `i64`, little-endian. -/
def encI64 (n : Int) : List Nat :=
  encU64 (n % (2 ^ 64 : Int)).toNat

def decI64 (bs : List Nat) : Option (Int × List Nat) :=
  match decU64 bs with
  | some (m, rest) =>
      some (if m < 2 ^ 63 then (m : Int) else (m : Int) - 2 ^ 64, rest)
  | none => none

/-- One-byte boolean. -/
def encBool (b : Bool) : List Nat :=
  [if b then 1 else 0]

def decBool : List Nat → Option (Bool × List Nat)
  | 0 :: rest => some (false, rest)
  | 1 :: rest => some (true, rest)
  | _ => none

/-- One Unicode scalar value in 4 little-endian bytes. -/
def encChar (c : Char) : List Nat :=
  encU32 c.toNat

def decChar (bs : List Nat) : Option (Char × List Nat) :=
  match decU32 bs with
  | some (n, rest) => some (Char.ofNat n, rest)
  | none => none

def encChars : List Char → List Nat
  | [] => []
  | c :: cs => encChar c ++ encChars cs

def decChars : Nat → List Nat → Option (List Char × List Nat)
  | 0, bs => some ([], bs)
  | n + 1, bs =>
      match decChar bs with
      | some (c, bs1) =>
          match decChars n bs1 with
          | some (cs, bs2) => some (c :: cs, bs2)
          | none => none
      | none => none

/-- Length-prefixed string (spec §4.3 rule 6, at scalar-value
granularity). -/
def encString (s : String) : List Nat :=
  encU64 s.length ++ encChars s.data

def decString (bs : List Nat) : Option (String × List Nat) :=
  match decU64 bs with
  | some (n, bs1) =>
      match decChars n bs1 with
      | some (cs, bs2) => some (String.mk cs, bs2)
      | none => none
  | none => none

/-! ## Round-trip lemmas for the primitives -/

theorem decU64_encU64 (n : Nat) (h : n < 2 ^ 64) (rest : List Nat) :
    decU64 (encU64 n ++ rest) = some (n, rest) := by
  simp only [encU64, List.cons_append, List.nil_append, decU64]
  refine congrArg some (Prod.ext ?_ rfl)
  simp only
  omega

theorem decU32_encU32 (n : Nat) (h : n < 2 ^ 32) (rest : List Nat) :
    decU32 (encU32 n ++ rest) = some (n, rest) := by
  simp only [encU32, List.cons_append, List.nil_append, decU32]
  refine congrArg some (Prod.ext ?_ rfl)
  simp only
  omega

theorem decI64_encI64 (n : Int) (h1 : -(2 ^ 63) ≤ n) (h2 : n < 2 ^ 63)
    (rest : List Nat) : decI64 (encI64 n ++ rest) = some (n, rest) := by
  have hm : (n % (2 ^ 64 : Int)).toNat < 2 ^ 64 := by omega
  simp only [decI64, encI64, decU64_encU64 _ hm]
  refine congrArg some (Prod.ext ?_ rfl)
  simp only
  split <;> omega

theorem decBool_encBool (b : Bool) (rest : List Nat) :
    decBool (encBool b ++ rest) = some (b, rest) := by
  cases b <;> rfl

theorem decChar_encChar (c : Char) (rest : List Nat) :
    decChar (encChar c ++ rest) = some (c, rest) := by
  have h : c.toNat < 2 ^ 32 := by
    have := c.val.toNat_lt
    simpa [Char.toNat] using this
  simp [decChar, encChar, decU32_encU32 _ h, Char.ofNat_toNat]

theorem decChars_encChars (cs : List Char) (rest : List Nat) :
    decChars cs.length (encChars cs ++ rest) = some (cs, rest) := by
  induction cs with
  | nil => rfl
  | cons c cs ih =>
      simp [encChars, decChars, decChar_encChar, ih]

theorem decString_encString (s : String) (h : s.length < 2 ^ 64)
    (rest : List Nat) : decString (encString s ++ rest) = some (s, rest) := by
  obtain ⟨d⟩ := s
  have h2 : d.length < 2 ^ 64 := h
  have hlen : String.length ⟨d⟩ = d.length := rfl
  simp only [decString, encString, hlen, List.append_assoc,
    decU64_encU64 _ h2, decChars_encChars]

/-! ## Generic combinators (spec §4.3 rules 3–5) -/

/-- Optional value: one-byte presence flag, then the payload
(spec §4.3 rule 3). -/
def encOpt (enc : α → List Nat) : Option α → List Nat
  | none => [0]
  | some a => 1 :: enc a

def decOpt (dec : List Nat → Option (α × List Nat)) :
    List Nat → Option (Option α × List Nat)
  | 0 :: rest => some (none, rest)
  | 1 :: rest =>
      match dec rest with
      | some (a, r) => some (some a, r)
      | none => none
  | _ => none

def encListBody (enc : α → List Nat) : List α → List Nat
  | [] => []
  | x :: xs => enc x ++ encListBody enc xs

/-- Sequence: unsigned length prefix, then the elements
(spec §4.3 rule 4). -/
def encList (enc : α → List Nat) (xs : List α) : List Nat :=
  encU64 xs.length ++ encListBody enc xs

def decListBody (dec : List Nat → Option (α × List Nat)) :
    Nat → List Nat → Option (List α × List Nat)
  | 0, bs => some ([], bs)
  | n + 1, bs =>
      match dec bs with
      | some (x, bs1) =>
          match decListBody dec n bs1 with
          | some (xs, bs2) => some (x :: xs, bs2)
          | none => none
      | none => none

def decList (dec : List Nat → Option (α × List Nat)) (bs : List Nat) :
    Option (List α × List Nat) :=
  match decU64 bs with
  | some (n, bs1) => decListBody dec n bs1
  | none => none

/-- Tuple: concatenation of the component encodings
(spec §4.3 rule 2). -/
def encPair (f : α → List Nat) (g : β → List Nat) (p : α × β) : List Nat :=
  f p.1 ++ g p.2

def decPair (f : List Nat → Option (α × List Nat))
    (g : List Nat → Option (β × List Nat)) (bs : List Nat) :
    Option ((α × β) × List Nat) :=
  match f bs with
  | some (a, bs1) =>
      match g bs1 with
      | some (b, bs2) => some ((a, b), bs2)
      | none => none
  | none => none

theorem decOpt_encOpt (dec : List Nat → Option (α × List Nat))
    (enc : α → List Nat) (o : Option α) (rest : List Nat)
    (h : ∀ a, o = some a → ∀ r, dec (enc a ++ r) = some (a, r)) :
    decOpt dec (encOpt enc o ++ rest) = some (o, rest) := by
  cases o with
  | none => rfl
  | some a => simp [encOpt, decOpt, h a rfl rest]

theorem decListBody_encListBody (dec : List Nat → Option (α × List Nat))
    (enc : α → List Nat) (xs : List α) (rest : List Nat)
    (h : ∀ x ∈ xs, ∀ r, dec (enc x ++ r) = some (x, r)) :
    decListBody dec xs.length (encListBody enc xs ++ rest) = some (xs, rest) := by
  induction xs with
  | nil => rfl
  | cons x xs ih =>
      have hx := h x (by simp)
      have hxs : ∀ y ∈ xs, ∀ r, dec (enc y ++ r) = some (y, r) := by
        intro y hy r
        exact h y (by simp [hy]) r
      simp [encListBody, decListBody, hx, ih hxs]

theorem decList_encList (dec : List Nat → Option (α × List Nat))
    (enc : α → List Nat) (xs : List α) (rest : List Nat)
    (hlen : xs.length < 2 ^ 64)
    (h : ∀ x ∈ xs, ∀ r, dec (enc x ++ r) = some (x, r)) :
    decList dec (encList enc xs ++ rest) = some (xs, rest) := by
  simp [decList, encList, decU64_encU64 _ hlen,
    decListBody_encListBody dec enc xs rest h]

theorem decPair_encPair (f : List Nat → Option (α × List Nat))
    (g : List Nat → Option (β × List Nat)) (ef : α → List Nat)
    (eg : β → List Nat) (p : α × β) (rest : List Nat)
    (hf : ∀ r, f (ef p.1 ++ r) = some (p.1, r))
    (hg : ∀ r, g (eg p.2 ++ r) = some (p.2, r)) :
    decPair f g (encPair ef eg p ++ rest) = some (p, rest) := by
  simp [decPair, encPair, hf, hg]

/-! ## Json codec (spec §4.3 rule 7: discriminant + payload over the
seven variants) -/

mutual

def encJson : Json → List Nat
  | .null => encU32 0
  | .bool b => encU32 1 ++ encBool b
  | .int n => encU32 2 ++ encI64 n
  | .double bits => encU32 3 ++ encU64 bits
  | .str s => encU32 4 ++ encString s
  | .arr items => encU32 5 ++ encU64 items.length ++ encJsonList items
  | .obj entries => encU32 6 ++ encU64 entries.length ++ encJsonObj entries

def encJsonList : List Json → List Nat
  | [] => []
  | j :: js => encJson j ++ encJsonList js

def encJsonObj : List (String × Json) → List Nat
  | [] => []
  | (k, v) :: kvs => encString k ++ encJson v ++ encJsonObj kvs

end

mutual

def decJson : Nat → List Nat → Option (Json × List Nat)
  | 0, _ => none
  | fuel + 1, bs =>
      match decU32 bs with
      | some (0, r) => some (.null, r)
      | some (1, r) =>
          match decBool r with
          | some (b, r1) => some (.bool b, r1)
          | none => none
      | some (2, r) =>
          match decI64 r with
          | some (n, r1) => some (.int n, r1)
          | none => none
      | some (3, r) =>
          match decU64 r with
          | some (bits, r1) => some (.double bits, r1)
          | none => none
      | some (4, r) =>
          match decString r with
          | some (s, r1) => some (.str s, r1)
          | none => none
      | some (5, r) =>
          match decU64 r with
          | some (n, r1) =>
              match decJsonList fuel n r1 with
              | some (items, r2) => some (.arr items, r2)
              | none => none
          | none => none
      | some (6, r) =>
          match decU64 r with
          | some (n, r1) =>
              match decJsonObj fuel n r1 with
              | some (entries, r2) => some (.obj entries, r2)
              | none => none
          | none => none
      | _ => none
termination_by fuel bs => (fuel, 0)

def decJsonList : Nat → Nat → List Nat → Option (List Json × List Nat)
  | _, 0, bs => some ([], bs)
  | fuel, n + 1, bs =>
      match decJson fuel bs with
      | some (j, bs1) =>
          match decJsonList fuel n bs1 with
          | some (js, bs2) => some (j :: js, bs2)
          | none => none
      | none => none
termination_by fuel n bs => (fuel, n + 1)

def decJsonObj : Nat → Nat → List Nat → Option (List (String × Json) × List Nat)
  | _, 0, bs => some ([], bs)
  | fuel, n + 1, bs =>
      match decString bs with
      | some (k, bs1) =>
          match decJson fuel bs1 with
          | some (v, bs2) =>
              match decJsonObj fuel n bs2 with
              | some (kvs, bs3) => some ((k, v) :: kvs, bs3)
              | none => none
          | none => none
      | none => none
termination_by fuel n bs => (fuel, n + 1)

end

/-! Nesting depth of a `Json` tree: the decoder consumes one unit of
fuel at each node it enters. -/

mutual

def jdepth : Json → Nat
  | .arr items => 1 + jdepthList items
  | .obj entries => 1 + jdepthObj entries
  | _ => 1

def jdepthList : List Json → Nat
  | [] => 0
  | j :: js => max (jdepth j) (jdepthList js)

def jdepthObj : List (String × Json) → Nat
  | [] => 0
  | (_, v) :: kvs => max (jdepth v) (jdepthObj kvs)

end

/-! Well-formedness: all integers and lengths fit their machine widths.
Every Rust value inhabits this predicate by construction. -/

mutual

def wfJson : Json → Bool
  | .null => true
  | .bool _ => true
  | .int n => decide (-(2 ^ 63) ≤ n) && decide (n < 2 ^ 63)
  | .double bits => decide (bits < 2 ^ 64)
  | .str s => decide (s.length < 2 ^ 64)
  | .arr items => decide (items.length < 2 ^ 64) && wfJsonList items
  | .obj entries => decide (entries.length < 2 ^ 64) && wfJsonObj entries

def wfJsonList : List Json → Bool
  | [] => true
  | j :: js => wfJson j && wfJsonList js

def wfJsonObj : List (String × Json) → Bool
  | [] => true
  | (k, v) :: kvs => decide (k.length < 2 ^ 64) && wfJson v && wfJsonObj kvs

end

theorem jdepth_pos (j : Json) : 1 ≤ jdepth j := by
  cases j <;> simp [jdepth]

mutual

theorem decJson_encJson (j : Json) (fuel : Nat) (hwf : wfJson j = true)
    (hd : jdepth j ≤ fuel) (rest : List Nat) :
    decJson fuel (encJson j ++ rest) = some (j, rest) := by
  cases fuel with
  | zero => exact absurd hd (by have := jdepth_pos j; omega)
  | succ f =>
      cases j with
      | null =>
          simp [encJson, decJson, decU32_encU32 0 (by norm_num)]
      | bool b =>
          simp [encJson, decJson, List.append_assoc,
            decU32_encU32 1 (by norm_num), decBool_encBool]
      | int n =>
          simp only [wfJson, Bool.and_eq_true, decide_eq_true_eq] at hwf
          simp [encJson, decJson, List.append_assoc,
            decU32_encU32 2 (by norm_num), decI64_encI64 n hwf.1 hwf.2]
      | double bits =>
          simp only [wfJson, decide_eq_true_eq] at hwf
          simp [encJson, decJson, List.append_assoc,
            decU32_encU32 3 (by norm_num), decU64_encU64 _ hwf]
      | str s =>
          simp only [wfJson, decide_eq_true_eq] at hwf
          simp [encJson, decJson, List.append_assoc,
            decU32_encU32 4 (by norm_num), decString_encString s hwf]
      | arr items =>
          simp only [wfJson, Bool.and_eq_true, decide_eq_true_eq] at hwf
          have hd1 : jdepthList items ≤ f := by
            simp only [jdepth] at hd; omega
          simp [encJson, decJson, List.append_assoc,
            decU32_encU32 5 (by norm_num), decU64_encU64 _ hwf.1,
            decJsonList_encJsonList items f hwf.2 hd1]
      | obj entries =>
          simp only [wfJson, Bool.and_eq_true, decide_eq_true_eq] at hwf
          have hd1 : jdepthObj entries ≤ f := by
            simp only [jdepth] at hd; omega
          simp [encJson, decJson, List.append_assoc,
            decU32_encU32 6 (by norm_num), decU64_encU64 _ hwf.1,
            decJsonObj_encJsonObj entries f hwf.2 hd1]

theorem decJsonList_encJsonList (js : List Json) (fuel : Nat)
    (hwf : wfJsonList js = true) (hd : jdepthList js ≤ fuel) (rest : List Nat) :
    decJsonList fuel js.length (encJsonList js ++ rest) = some (js, rest) := by
  cases js with
  | nil => simp [encJsonList, decJsonList]
  | cons j js =>
      simp only [wfJsonList, Bool.and_eq_true] at hwf
      simp only [jdepthList, Nat.max_le] at hd
      simp [encJsonList, decJsonList, List.append_assoc,
        decJson_encJson j fuel hwf.1 hd.1,
        decJsonList_encJsonList js fuel hwf.2 hd.2]

theorem decJsonObj_encJsonObj (kvs : List (String × Json)) (fuel : Nat)
    (hwf : wfJsonObj kvs = true) (hd : jdepthObj kvs ≤ fuel) (rest : List Nat) :
    decJsonObj fuel kvs.length (encJsonObj kvs ++ rest) = some (kvs, rest) := by
  cases kvs with
  | nil => simp [encJsonObj, decJsonObj]
  | cons kv kvs =>
      obtain ⟨k, v⟩ := kv
      simp only [wfJsonObj, Bool.and_eq_true, decide_eq_true_eq] at hwf
      simp only [jdepthObj, Nat.max_le] at hd
      simp [encJsonObj, decJsonObj, List.append_assoc,
        decString_encString k hwf.1.1,
        decJson_encJson v fuel hwf.1.2 hd.1,
        decJsonObj_encJsonObj kvs fuel hwf.2 hd.2]

end

/-! ## Filter codec

The decoder carries two budgets: `d`, the configured maximum
`Filter` nesting depth (spec §5: "a maximum nested-recursion depth for
Filter"), consumed once per `Filter` node; and `jf`, the fuel for
embedded `Json` payloads. -/

mutual

def encFilter : Filter → List Nat
  | .Equals field value => encU32 0 ++ encString field ++ encJson value
  | .NotEquals field value => encU32 1 ++ encString field ++ encJson value
  | .GreaterThan field value => encU32 2 ++ encString field ++ encU64 value
  | .LessThan field value => encU32 3 ++ encString field ++ encU64 value
  | .In field values =>
      encU32 4 ++ encString field ++ encU64 values.length ++ encJsonList values
  | .And filters => encU32 5 ++ encU64 filters.length ++ encFilterList filters
  | .Or filters => encU32 6 ++ encU64 filters.length ++ encFilterList filters

def encFilterList : List Filter → List Nat
  | [] => []
  | f :: fs => encFilter f ++ encFilterList fs

end

mutual

def decFilter : Nat → Nat → List Nat → Option (Filter × List Nat)
  | 0, _, _ => none
  | d + 1, jf, bs =>
      match decU32 bs with
      | some (0, r) =>
          match decString r with
          | some (field, r1) =>
              match decJson jf r1 with
              | some (v, r2) => some (.Equals field v, r2)
              | none => none
          | none => none
      | some (1, r) =>
          match decString r with
          | some (field, r1) =>
              match decJson jf r1 with
              | some (v, r2) => some (.NotEquals field v, r2)
              | none => none
          | none => none
      | some (2, r) =>
          match decString r with
          | some (field, r1) =>
              match decU64 r1 with
              | some (v, r2) => some (.GreaterThan field v, r2)
              | none => none
          | none => none
      | some (3, r) =>
          match decString r with
          | some (field, r1) =>
              match decU64 r1 with
              | some (v, r2) => some (.LessThan field v, r2)
              | none => none
          | none => none
      | some (4, r) =>
          match decString r with
          | some (field, r1) =>
              match decU64 r1 with
              | some (n, r2) =>
                  match decJsonList jf n r2 with
                  | some (vs, r3) => some (.In field vs, r3)
                  | none => none
              | none => none
          | none => none
      | some (5, r) =>
          match decU64 r with
          | some (n, r1) =>
              match decFilterList d jf n r1 with
              | some (fs, r2) => some (.And fs, r2)
              | none => none
          | none => none
      | some (6, r) =>
          match decU64 r with
          | some (n, r1) =>
              match decFilterList d jf n r1 with
              | some (fs, r2) => some (.Or fs, r2)
              | none => none
          | none => none
      | _ => none
termination_by d jf bs => (d, 0)

def decFilterList : Nat → Nat → Nat → List Nat → Option (List Filter × List Nat)
  | _, _, 0, bs => some ([], bs)
  | d, jf, n + 1, bs =>
      match decFilter d jf bs with
      | some (f, bs1) =>
          match decFilterList d jf n bs1 with
          | some (fs, bs2) => some (f :: fs, bs2)
          | none => none
      | none => none
termination_by d jf n bs => (d, n + 1)

end

/-! `Filter` nesting depth: each node counts one, `And`/`Or` nest their
deepest child below themselves. -/

mutual

def fdepth : Filter → Nat
  | .And filters => 1 + fdepthList filters
  | .Or filters => 1 + fdepthList filters
  | _ => 1

def fdepthList : List Filter → Nat
  | [] => 0
  | f :: fs => max (fdepth f) (fdepthList fs)

end

/-! Depth of the deepest `Json` payload inside a filter. -/

mutual

def fjdepth : Filter → Nat
  | .Equals _ value => jdepth value
  | .NotEquals _ value => jdepth value
  | .GreaterThan _ _ => 0
  | .LessThan _ _ => 0
  | .In _ values => jdepthList values
  | .And filters => fjdepthList filters
  | .Or filters => fjdepthList filters

def fjdepthList : List Filter → Nat
  | [] => 0
  | f :: fs => max (fjdepth f) (fjdepthList fs)

end

mutual

def wfFilter : Filter → Bool
  | .Equals field value => decide (field.length < 2 ^ 64) && wfJson value
  | .NotEquals field value => decide (field.length < 2 ^ 64) && wfJson value
  | .GreaterThan field value => decide (field.length < 2 ^ 64) && decide (value < 2 ^ 64)
  | .LessThan field value => decide (field.length < 2 ^ 64) && decide (value < 2 ^ 64)
  | .In field values =>
      decide (field.length < 2 ^ 64) && decide (values.length < 2 ^ 64) && wfJsonList values
  | .And filters => decide (filters.length < 2 ^ 64) && wfFilterList filters
  | .Or filters => decide (filters.length < 2 ^ 64) && wfFilterList filters

def wfFilterList : List Filter → Bool
  | [] => true
  | f :: fs => wfFilter f && wfFilterList fs

end

theorem fdepth_pos (f : Filter) : 1 ≤ fdepth f := by
  cases f <;> simp [fdepth]

mutual

theorem decFilter_encFilter (fl : Filter) (d jf : Nat)
    (hwf : wfFilter fl = true) (hd : fdepth fl ≤ d) (hj : fjdepth fl ≤ jf)
    (rest : List Nat) : decFilter d jf (encFilter fl ++ rest) = some (fl, rest) := by
  cases d with
  | zero => exact absurd hd (by have := fdepth_pos fl; omega)
  | succ d =>
      cases fl with
      | Equals field value =>
          simp only [wfFilter, Bool.and_eq_true, decide_eq_true_eq] at hwf
          simp only [fjdepth] at hj
          simp [encFilter, decFilter, List.append_assoc,
            decU32_encU32 0 (by norm_num), decString_encString field hwf.1,
            decJson_encJson value jf hwf.2 hj]
      | NotEquals field value =>
          simp only [wfFilter, Bool.and_eq_true, decide_eq_true_eq] at hwf
          simp only [fjdepth] at hj
          simp [encFilter, decFilter, List.append_assoc,
            decU32_encU32 1 (by norm_num), decString_encString field hwf.1,
            decJson_encJson value jf hwf.2 hj]
      | GreaterThan field value =>
          simp only [wfFilter, Bool.and_eq_true, decide_eq_true_eq] at hwf
          simp [encFilter, decFilter, List.append_assoc,
            decU32_encU32 2 (by norm_num), decString_encString field hwf.1,
            decU64_encU64 _ hwf.2]
      | LessThan field value =>
          simp only [wfFilter, Bool.and_eq_true, decide_eq_true_eq] at hwf
          simp [encFilter, decFilter, List.append_assoc,
            decU32_encU32 3 (by norm_num), decString_encString field hwf.1,
            decU64_encU64 _ hwf.2]
      | In field values =>
          simp only [wfFilter, Bool.and_eq_true, decide_eq_true_eq] at hwf
          simp only [fjdepth] at hj
          simp [encFilter, decFilter, List.append_assoc,
            decU32_encU32 4 (by norm_num), decString_encString field hwf.1.1,
            decU64_encU64 _ hwf.1.2,
            decJsonList_encJsonList values jf hwf.2 hj]
      | And filters =>
          simp only [wfFilter, Bool.and_eq_true, decide_eq_true_eq] at hwf
          have hd1 : fdepthList filters ≤ d := by
            simp only [fdepth] at hd; omega
          simp only [fjdepth] at hj
          simp [encFilter, decFilter, List.append_assoc,
            decU32_encU32 5 (by norm_num), decU64_encU64 _ hwf.1,
            decFilterList_encFilterList filters d jf hwf.2 hd1 hj]
      | Or filters =>
          simp only [wfFilter, Bool.and_eq_true, decide_eq_true_eq] at hwf
          have hd1 : fdepthList filters ≤ d := by
            simp only [fdepth] at hd; omega
          simp only [fjdepth] at hj
          simp [encFilter, decFilter, List.append_assoc,
            decU32_encU32 6 (by norm_num), decU64_encU64 _ hwf.1,
            decFilterList_encFilterList filters d jf hwf.2 hd1 hj]

theorem decFilterList_encFilterList (fs : List Filter) (d jf : Nat)
    (hwf : wfFilterList fs = true) (hd : fdepthList fs ≤ d)
    (hj : fjdepthList fs ≤ jf) (rest : List Nat) :
    decFilterList d jf fs.length (encFilterList fs ++ rest) = some (fs, rest) := by
  cases fs with
  | nil => simp [encFilterList, decFilterList]
  | cons f fs =>
      simp only [wfFilterList, Bool.and_eq_true] at hwf
      simp only [fdepthList, Nat.max_le] at hd
      simp only [fjdepthList, Nat.max_le] at hj
      simp [encFilterList, decFilterList, List.append_assoc,
        decFilter_encFilter f d jf hwf.1 hd.1 hj.1,
        decFilterList_encFilterList fs d jf hwf.2 hd.2 hj.2]

end

/-! Depth-bound enforcement: decoding the canonical encoding of a
filter whose nesting depth exceeds the budget yields a decode error. -/

mutual

theorem decFilter_encFilter_deep (fl : Filter) (d jf : Nat)
    (hwf : wfFilter fl = true) (hd : d < fdepth fl) (hj : fjdepth fl ≤ jf)
    (rest : List Nat) : decFilter d jf (encFilter fl ++ rest) = none := by
  cases d with
  | zero => simp [decFilter]
  | succ d =>
      cases fl with
      | Equals field value => simp only [fdepth] at hd; omega
      | NotEquals field value => simp only [fdepth] at hd; omega
      | GreaterThan field value => simp only [fdepth] at hd; omega
      | LessThan field value => simp only [fdepth] at hd; omega
      | In field values => simp only [fdepth] at hd; omega
      | And filters =>
          simp only [wfFilter, Bool.and_eq_true, decide_eq_true_eq] at hwf
          have hd1 : d < fdepthList filters := by
            simp only [fdepth] at hd; omega
          simp only [fjdepth] at hj
          simp [encFilter, decFilter, List.append_assoc,
            decU32_encU32 5 (by norm_num), decU64_encU64 _ hwf.1,
            decFilterList_encFilterList_deep filters d jf hwf.2 hd1 hj]
      | Or filters =>
          simp only [wfFilter, Bool.and_eq_true, decide_eq_true_eq] at hwf
          have hd1 : d < fdepthList filters := by
            simp only [fdepth] at hd; omega
          simp only [fjdepth] at hj
          simp [encFilter, decFilter, List.append_assoc,
            decU32_encU32 6 (by norm_num), decU64_encU64 _ hwf.1,
            decFilterList_encFilterList_deep filters d jf hwf.2 hd1 hj]

theorem decFilterList_encFilterList_deep (fs : List Filter) (d jf : Nat)
    (hwf : wfFilterList fs = true) (hd : d < fdepthList fs)
    (hj : fjdepthList fs ≤ jf) (rest : List Nat) :
    decFilterList d jf fs.length (encFilterList fs ++ rest) = none := by
  cases fs with
  | nil => simp only [fdepthList] at hd; omega
  | cons f fs =>
      simp only [wfFilterList, Bool.and_eq_true] at hwf
      simp only [fdepthList] at hd
      simp only [fjdepthList, Nat.max_le] at hj
      by_cases hf : d < fdepth f
      · simp [encFilterList, decFilterList, List.append_assoc,
          decFilter_encFilter_deep f d jf hwf.1 hf hj.1]
      · have hf2 : fdepth f ≤ d := by omega
        have hd1 : d < fdepthList fs := by omega
        simp [encFilterList, decFilterList, List.append_assoc,
          decFilter_encFilter f d jf hwf.1 hf2 hj.1,
          decFilterList_encFilterList_deep fs d jf hwf.2 hd1 hj.2]

end

/-! ## Value-type codecs -/

/-- `Record`: a map, encoded as length prefix plus key/value pairs
(spec §4.3 rule 5). -/
def encRecord (r : Record) : List Nat :=
  encU64 r.length ++ encJsonObj r

def decRecord (jf : Nat) (bs : List Nat) : Option (Record × List Nat) :=
  match decU64 bs with
  | some (n, bs1) => decJsonObj jf n bs1
  | none => none

def wfRecord (r : Record) : Bool :=
  decide (r.length < 2 ^ 64) && wfJsonObj r

theorem decRecord_encRecord (r : Record) (jf : Nat) (hwf : wfRecord r = true)
    (hj : jdepthObj r ≤ jf) (rest : List Nat) :
    decRecord jf (encRecord r ++ rest) = some (r, rest) := by
  simp only [wfRecord, Bool.and_eq_true, decide_eq_true_eq] at hwf
  simp [decRecord, encRecord, List.append_assoc, decU64_encU64 _ hwf.1,
    decJsonObj_encJsonObj r jf hwf.2 hj]

def jdepthRecords : List Record → Nat
  | [] => 0
  | r :: rs => max (jdepthObj r) (jdepthRecords rs)

def wfRecords : List Record → Bool
  | [] => true
  | r :: rs => wfRecord r && wfRecords rs

theorem wfRecords_mem {rs : List Record} {r : Record}
    (h : wfRecords rs = true) (hm : r ∈ rs) : wfRecord r = true := by
  induction rs with
  | nil => cases hm
  | cons x xs ih =>
      simp only [wfRecords, Bool.and_eq_true] at h
      rcases List.mem_cons.mp hm with rfl | hm2
      · exact h.1
      · exact ih h.2 hm2

theorem jdepthRecords_mem {rs : List Record} {r : Record} (hm : r ∈ rs) :
    jdepthObj r ≤ jdepthRecords rs := by
  induction rs with
  | nil => cases hm
  | cons x xs ih =>
      rcases List.mem_cons.mp hm with rfl | hm2
      · simp [jdepthRecords]
      · simp only [jdepthRecords]
        exact le_trans (ih hm2) (Nat.le_max_right _ _)

/-- `RecordSet` (`src/types.rs` lines 15–18): struct with one `Vec`
field. -/
def encRecordSet (rs : RecordSet) : List Nat :=
  encList encRecord rs.records

def decRecordSet (jf : Nat) (bs : List Nat) : Option (RecordSet × List Nat) :=
  match decList (decRecord jf) bs with
  | some (records, r) => some (RecordSet.mk records, r)
  | none => none

def wfRecordSet (rs : RecordSet) : Bool :=
  decide (rs.records.length < 2 ^ 64) && wfRecords rs.records

theorem decRecordSet_encRecordSet (rs : RecordSet) (jf : Nat)
    (hwf : wfRecordSet rs = true) (hj : jdepthRecords rs.records ≤ jf)
    (rest : List Nat) : decRecordSet jf (encRecordSet rs ++ rest) = some (rs, rest) := by
  obtain ⟨records⟩ := rs
  simp only [wfRecordSet, Bool.and_eq_true, decide_eq_true_eq] at hwf
  have h : ∀ r ∈ records, ∀ t, decRecord jf (encRecord r ++ t) = some (r, t) := by
    intro r hm t
    exact decRecord_encRecord r jf (wfRecords_mem hwf.2 hm)
      (le_trans (jdepthRecords_mem hm) hj) t
  simp [decRecordSet, encRecordSet, decList_encList _ _ _ _ hwf.1 h]

/-- `Direction` (`src/types.rs` lines 41–45). -/
def encDirection : Direction → List Nat
  | .Asc => encU32 0
  | .Desc => encU32 1

def decDirection (bs : List Nat) : Option (Direction × List Nat) :=
  match decU32 bs with
  | some (0, r) => some (.Asc, r)
  | some (1, r) => some (.Desc, r)
  | some _ => none
  | none => none

theorem decDirection_encDirection (d : Direction) (rest : List Nat) :
    decDirection (encDirection d ++ rest) = some (d, rest) := by
  cases d <;>
    simp [encDirection, decDirection, decU32_encU32 0 (by norm_num),
      decU32_encU32 1 (by norm_num)]

/-- `QueryOptions` (`src/types.rs` lines 33–38): three optional fields,
concatenated in declaration order (spec §4.3 rules 2–3). -/
def encQueryOptions (o : QueryOptions) : List Nat :=
  encOpt (encPair encString encDirection) o.sort_by
    ++ encOpt encU64 o.limit ++ encOpt encU64 o.offset

def decQueryOptions (bs : List Nat) : Option (QueryOptions × List Nat) :=
  match decOpt (decPair decString decDirection) bs with
  | some (sb, bs1) =>
      match decOpt decU64 bs1 with
      | some (lim, bs2) =>
          match decOpt decU64 bs2 with
          | some (off, bs3) => some (QueryOptions.mk sb lim off, bs3)
          | none => none
      | none => none
  | none => none

def wfQueryOptions (o : QueryOptions) : Bool :=
  (match o.sort_by with
   | none => true
   | some (s, _) => decide (s.length < 2 ^ 64)) &&
  (match o.limit with
   | none => true
   | some n => decide (n < 2 ^ 64)) &&
  (match o.offset with
   | none => true
   | some n => decide (n < 2 ^ 64))

theorem decQueryOptions_encQueryOptions (o : QueryOptions)
    (hwf : wfQueryOptions o = true) (rest : List Nat) :
    decQueryOptions (encQueryOptions o ++ rest) = some (o, rest) := by
  obtain ⟨sb, lim, off⟩ := o
  simp only [wfQueryOptions, Bool.and_eq_true] at hwf
  have h1 : ∀ t, decOpt (decPair decString decDirection)
      (encOpt (encPair encString encDirection) sb ++ t) = some (sb, t) := by
    intro t
    refine decOpt_encOpt _ _ _ _ ?_
    intro a ha r
    obtain ⟨s, dir⟩ := a
    refine decPair_encPair _ _ _ _ _ _ ?_ ?_
    · intro r2
      refine decString_encString s ?_ r2
      have := hwf.1.1
      rw [ha] at this
      simpa using this
    · intro r2
      exact decDirection_encDirection dir r2
  have h2 : ∀ t, decOpt decU64 (encOpt encU64 lim ++ t) = some (lim, t) := by
    intro t
    refine decOpt_encOpt _ _ _ _ ?_
    intro a ha r
    refine decU64_encU64 a ?_ r
    have := hwf.1.2
    rw [ha] at this
    simpa using this
  have h3 : ∀ t, decOpt decU64 (encOpt encU64 off ++ t) = some (off, t) := by
    intro t
    refine decOpt_encOpt _ _ _ _ ?_
    intro a ha r
    refine decU64_encU64 a ?_ r
    have := hwf.2
    rw [ha] at this
    simpa using this
  simp [decQueryOptions, encQueryOptions, List.append_assoc, h1, h2, h3]

/-- `DbStats` (`src/types.rs` lines 48–52). -/
def encDbStats (st : DbStats) : List Nat :=
  encU64 st.collection_count ++ encU64 st.record_count

def decDbStats (bs : List Nat) : Option (DbStats × List Nat) :=
  match decU64 bs with
  | some (c, bs1) =>
      match decU64 bs1 with
      | some (r, bs2) => some (DbStats.mk c r, bs2)
      | none => none
  | none => none

def wfDbStats (st : DbStats) : Bool :=
  decide (st.collection_count < 2 ^ 64) && decide (st.record_count < 2 ^ 64)

theorem decDbStats_encDbStats (st : DbStats) (hwf : wfDbStats st = true)
    (rest : List Nat) : decDbStats (encDbStats st ++ rest) = some (st, rest) := by
  obtain ⟨c, r⟩ := st
  simp only [wfDbStats, Bool.and_eq_true, decide_eq_true_eq] at hwf
  simp [decDbStats, encDbStats, List.append_assoc, decU64_encU64 _ hwf.1,
    decU64_encU64 _ hwf.2]

/-- `BatchRequest` (`src/types.rs` lines 55–58): map from key to the
*pair* `(Collection, Record ID)` declared in the source. -/
def encBatchRequest (b : BatchRequest) : List Nat :=
  encList (encPair encString (encPair encString encString)) b.requests

def decBatchRequest (bs : List Nat) : Option (BatchRequest × List Nat) :=
  match decList (decPair decString (decPair decString decString)) bs with
  | some (reqs, r) => some (BatchRequest.mk reqs, r)
  | none => none

def wfBatchEntries : List (String × (String × String)) → Bool
  | [] => true
  | (k, (c, i)) :: es =>
      decide (k.length < 2 ^ 64) && decide (c.length < 2 ^ 64)
        && decide (i.length < 2 ^ 64) && wfBatchEntries es

def wfBatchRequest (b : BatchRequest) : Bool :=
  decide (b.requests.length < 2 ^ 64) && wfBatchEntries b.requests

theorem wfBatchEntries_mem {es : List (String × (String × String))}
    {e : String × (String × String)} (h : wfBatchEntries es = true) (hm : e ∈ es) :
    e.1.length < 2 ^ 64 ∧ e.2.1.length < 2 ^ 64 ∧ e.2.2.length < 2 ^ 64 := by
  induction es with
  | nil => cases hm
  | cons x xs ih =>
      obtain ⟨k, c, i⟩ := x
      simp only [wfBatchEntries, Bool.and_eq_true, decide_eq_true_eq] at h
      rcases List.mem_cons.mp hm with rfl | hm2
      · exact ⟨h.1.1.1, h.1.1.2, h.1.2⟩
      · exact ih h.2 hm2

theorem decBatchRequest_encBatchRequest (b : BatchRequest)
    (hwf : wfBatchRequest b = true) (rest : List Nat) :
    decBatchRequest (encBatchRequest b ++ rest) = some (b, rest) := by
  obtain ⟨reqs⟩ := b
  simp only [wfBatchRequest, Bool.and_eq_true, decide_eq_true_eq] at hwf
  have h : ∀ e ∈ reqs, ∀ t,
      decPair decString (decPair decString decString)
        (encPair encString (encPair encString encString) e ++ t) = some (e, t) := by
    intro e hm t
    obtain ⟨hk, hc, hi⟩ := wfBatchEntries_mem hwf.2 hm
    exact decPair_encPair _ _ _ _ _ _
      (fun r2 => decString_encString _ hk r2)
      (fun r2 => decPair_encPair _ _ _ _ _ _
        (fun r3 => decString_encString _ hc r3)
        (fun r3 => decString_encString _ hi r3))
  simp [decBatchRequest, encBatchRequest, decList_encList _ _ _ _ hwf.1 h]

/-- `BatchResponse` (`src/types.rs` lines 61–64). -/
def encBatchResponse (b : BatchResponse) : List Nat :=
  encList (encPair encString (encOpt encRecord)) b.results

def decBatchResponse (jf : Nat) (bs : List Nat) : Option (BatchResponse × List Nat) :=
  match decList (decPair decString (decOpt (decRecord jf))) bs with
  | some (res, r) => some (BatchResponse.mk res, r)
  | none => none

def wfResults : List (String × Option Record) → Bool
  | [] => true
  | (k, r) :: es =>
      decide (k.length < 2 ^ 64)
        && (match r with | none => true | some rec => wfRecord rec)
        && wfResults es

def wfBatchResponse (b : BatchResponse) : Bool :=
  decide (b.results.length < 2 ^ 64) && wfResults b.results

def jdepthResults : List (String × Option Record) → Nat
  | [] => 0
  | (_, none) :: es => jdepthResults es
  | (_, some r) :: es => max (jdepthObj r) (jdepthResults es)

theorem wfResults_mem {es : List (String × Option Record)}
    {e : String × Option Record} (h : wfResults es = true) (hm : e ∈ es) :
    e.1.length < 2 ^ 64 ∧ ∀ rec, e.2 = some rec → wfRecord rec = true := by
  induction es with
  | nil => cases hm
  | cons x xs ih =>
      obtain ⟨k, r⟩ := x
      simp only [wfResults, Bool.and_eq_true, decide_eq_true_eq] at h
      rcases List.mem_cons.mp hm with rfl | hm2
      · refine ⟨h.1.1, ?_⟩
        intro rec hr
        have hr2 : r = some rec := hr
        subst hr2
        simpa using h.1.2
      · exact ih h.2 hm2

theorem jdepthResults_mem {es : List (String × Option Record)}
    {k : String} {rec : Record} (hm : (k, some rec) ∈ es) :
    jdepthObj rec ≤ jdepthResults es := by
  induction es with
  | nil => cases hm
  | cons x xs ih =>
      obtain ⟨k2, r2⟩ := x
      rcases List.mem_cons.mp hm with heq | hm2
      · obtain ⟨h1, h2⟩ := Prod.mk.injEq .. ▸ heq
        subst h2
        simp [jdepthResults]
      · cases r2 with
        | none => simpa [jdepthResults] using ih hm2
        | some r3 =>
            simp only [jdepthResults]
            exact le_trans (ih hm2) (Nat.le_max_right _ _)

theorem decBatchResponse_encBatchResponse (b : BatchResponse) (jf : Nat)
    (hwf : wfBatchResponse b = true) (hj : jdepthResults b.results ≤ jf)
    (rest : List Nat) :
    decBatchResponse jf (encBatchResponse b ++ rest) = some (b, rest) := by
  obtain ⟨res⟩ := b
  simp only [wfBatchResponse, Bool.and_eq_true, decide_eq_true_eq] at hwf
  have h : ∀ e ∈ res, ∀ t,
      decPair decString (decOpt (decRecord jf))
        (encPair encString (encOpt encRecord) e ++ t) = some (e, t) := by
    intro e hm t
    obtain ⟨k, rv⟩ := e
    obtain ⟨hk, hr⟩ := wfResults_mem hwf.2 hm
    refine decPair_encPair _ _ _ _ _ _
      (fun r2 => decString_encString _ hk r2) ?_
    intro r2
    refine decOpt_encOpt _ _ _ _ ?_
    intro rec hrec r3
    refine decRecord_encRecord rec jf (hr rec hrec) ?_ r3
    have hrec2 : rv = some rec := hrec
    subst hrec2
    exact le_trans (jdepthResults_mem hm) hj
  simp [decBatchResponse, encBatchResponse, decList_encList _ _ _ _ hwf.1 h]

/-- Lists of strings (`Vec<String>` payloads). -/
def wfStrings : List String → Bool
  | [] => true
  | s :: ss => decide (s.length < 2 ^ 64) && wfStrings ss

theorem wfStrings_mem {ss : List String} {s : String}
    (h : wfStrings ss = true) (hm : s ∈ ss) : s.length < 2 ^ 64 := by
  induction ss with
  | nil => cases hm
  | cons x xs ih =>
      simp only [wfStrings, Bool.and_eq_true, decide_eq_true_eq] at h
      rcases List.mem_cons.mp hm with rfl | hm2
      · exact h.1
      · exact ih h.2 hm2

theorem decList_encList_strings (ss : List String) (rest : List Nat)
    (hlen : ss.length < 2 ^ 64) (hwf : wfStrings ss = true) :
    decList decString (encList encString ss ++ rest) = some (ss, rest) :=
  decList_encList _ _ _ _ hlen
    (fun s hm r => decString_encString s (wfStrings_mem hwf hm) r)

/-! ## Request codec

Spec §4.3 rule 1: a tagged union is an unsigned integer discriminant,
assigned by declaration order starting at 0, followed by the variant's
payload. -/

/-- The golden discriminant table for `Request` (`src/request.rs`
lines 11–57, declaration order). -/
def requestTag : Request → Nat
  | .CreateDatabase _ => 0
  | .DropDatabase _ => 1
  | .ListDatabases => 2
  | .ListCollections => 3
  | .CreateCollection _ _ => 4
  | .DropCollection _ _ => 5
  | .GetStats => 6
  | .Flush => 7
  | .CreateIndex _ _ _ => 8
  | .DropIndex _ _ _ => 9
  | .ListIndexes _ _ => 10
  | .CreateRecord _ _ _ _ => 11
  | .UpdateRecord _ _ _ _ => 12
  | .UpsertRecord _ _ _ _ => 13
  | .GetRecord _ _ _ => 14
  | .DeleteRecord _ _ _ _ => 15
  | .GetLastInsertId => 16
  | .FindRecords _ _ _ _ => 17
  | .CountRecords _ _ _ => 18
  | .GetRecordWithRelated _ _ _ _ _ => 19
  | .ExecuteBatchGet _ => 20

/-- Payload: the variant's fields concatenated in declaration order
(spec §4.3 rule 2). -/
def encRequestPayload : Request → List Nat
  | .CreateDatabase db => encString db
  | .DropDatabase db => encString db
  | .ListDatabases => []
  | .ListCollections => []
  | .CreateCollection db cn => encString db ++ encString cn
  | .DropCollection db cn => encString db ++ encString cn
  | .GetStats => []
  | .Flush => []
  | .CreateIndex db c fname => encString db ++ encString c ++ encString fname
  | .DropIndex db c fname => encString db ++ encString c ++ encString fname
  | .ListIndexes db c => encString db ++ encString c
  | .CreateRecord db c rid data => encString db ++ encString c ++ encString rid ++ encRecord data
  | .UpdateRecord db c rid data => encString db ++ encString c ++ encString rid ++ encRecord data
  | .UpsertRecord db c rid data => encString db ++ encString c ++ encString rid ++ encRecord data
  | .GetRecord db c rid => encString db ++ encString c ++ encString rid
  | .DeleteRecord db c rid casc => encString db ++ encString c ++ encString rid ++ encBool casc
  | .GetLastInsertId => []
  | .FindRecords db c fl opts =>
      encString db ++ encString c ++ encFilter fl ++ encOpt encQueryOptions opts
  | .CountRecords db c fl => encString db ++ encString c ++ encFilter fl
  | .GetRecordWithRelated db pc pid rkf rc =>
      encString db ++ encString pc ++ encString pid ++ encString rkf ++ encString rc
  | .ExecuteBatchGet batch => encBatchRequest batch

/-- Canonical binary encoding of a `Request`: discriminant then
payload. -/
def encRequest (r : Request) : List Nat :=
  encU32 (requestTag r) ++ encRequestPayload r

/-- Nesting depth of the `Filter` payload, if any (the quantity
bounded by spec §5). -/
def reqFDepth : Request → Nat
  | .FindRecords _ _ fl _ => fdepth fl
  | .CountRecords _ _ fl => fdepth fl
  | _ => 0

/-- Depth of the deepest `Json` payload in the request. -/
def reqJDepth : Request → Nat
  | .CreateRecord _ _ _ data => jdepthObj data
  | .UpdateRecord _ _ _ data => jdepthObj data
  | .UpsertRecord _ _ _ data => jdepthObj data
  | .FindRecords _ _ fl _ => fjdepth fl
  | .CountRecords _ _ fl => fjdepth fl
  | _ => 0

def wfStr (s : String) : Bool :=
  decide (s.length < 2 ^ 64)

def wfRequest : Request → Bool
  | .CreateDatabase db => wfStr db
  | .DropDatabase db => wfStr db
  | .ListDatabases => true
  | .ListCollections => true
  | .CreateCollection db cn => wfStr db && wfStr cn
  | .DropCollection db cn => wfStr db && wfStr cn
  | .GetStats => true
  | .Flush => true
  | .CreateIndex db c fname => wfStr db && wfStr c && wfStr fname
  | .DropIndex db c fname => wfStr db && wfStr c && wfStr fname
  | .ListIndexes db c => wfStr db && wfStr c
  | .CreateRecord db c rid data => wfStr db && wfStr c && wfStr rid && wfRecord data
  | .UpdateRecord db c rid data => wfStr db && wfStr c && wfStr rid && wfRecord data
  | .UpsertRecord db c rid data => wfStr db && wfStr c && wfStr rid && wfRecord data
  | .GetRecord db c rid => wfStr db && wfStr c && wfStr rid
  | .DeleteRecord db c rid _ => wfStr db && wfStr c && wfStr rid
  | .GetLastInsertId => true
  | .FindRecords db c fl opts =>
      wfStr db && wfStr c && wfFilter fl
        && (match opts with | none => true | some o => wfQueryOptions o)
  | .CountRecords db c fl => wfStr db && wfStr c && wfFilter fl
  | .GetRecordWithRelated db pc pid rkf rc =>
      wfStr db && wfStr pc && wfStr pid && wfStr rkf && wfStr rc
  | .ExecuteBatchGet batch => wfBatchRequest batch

def decRequest (maxD jf : Nat) (bs : List Nat) : Option (Request × List Nat) :=
  match decU32 bs with
  | some (0, r) =>
      match decString r with
      | some (db, r1) => some (.CreateDatabase db, r1)
      | none => none
  | some (1, r) =>
      match decString r with
      | some (db, r1) => some (.DropDatabase db, r1)
      | none => none
  | some (2, r) => some (.ListDatabases, r)
  | some (3, r) => some (.ListCollections, r)
  | some (4, r) =>
      match decString r with
      | some (db, r1) =>
          match decString r1 with
          | some (cn, r2) => some (.CreateCollection db cn, r2)
          | none => none
      | none => none
  | some (5, r) =>
      match decString r with
      | some (db, r1) =>
          match decString r1 with
          | some (cn, r2) => some (.DropCollection db cn, r2)
          | none => none
      | none => none
  | some (6, r) => some (.GetStats, r)
  | some (7, r) => some (.Flush, r)
  | some (8, r) =>
      match decString r with
      | some (db, r1) =>
          match decString r1 with
          | some (c, r2) =>
              match decString r2 with
              | some (fname, r3) => some (.CreateIndex db c fname, r3)
              | none => none
          | none => none
      | none => none
  | some (9, r) =>
      match decString r with
      | some (db, r1) =>
          match decString r1 with
          | some (c, r2) =>
              match decString r2 with
              | some (fname, r3) => some (.DropIndex db c fname, r3)
              | none => none
          | none => none
      | none => none
  | some (10, r) =>
      match decString r with
      | some (db, r1) =>
          match decString r1 with
          | some (c, r2) => some (.ListIndexes db c, r2)
          | none => none
      | none => none
  | some (11, r) =>
      match decString r with
      | some (db, r1) =>
          match decString r1 with
          | some (c, r2) =>
              match decString r2 with
              | some (rid, r3) =>
                  match decRecord jf r3 with
                  | some (data, r4) => some (.CreateRecord db c rid data, r4)
                  | none => none
              | none => none
          | none => none
      | none => none
  | some (12, r) =>
      match decString r with
      | some (db, r1) =>
          match decString r1 with
          | some (c, r2) =>
              match decString r2 with
              | some (rid, r3) =>
                  match decRecord jf r3 with
                  | some (data, r4) => some (.UpdateRecord db c rid data, r4)
                  | none => none
              | none => none
          | none => none
      | none => none
  | some (13, r) =>
      match decString r with
      | some (db, r1) =>
          match decString r1 with
          | some (c, r2) =>
              match decString r2 with
              | some (rid, r3) =>
                  match decRecord jf r3 with
                  | some (data, r4) => some (.UpsertRecord db c rid data, r4)
                  | none => none
              | none => none
          | none => none
      | none => none
  | some (14, r) =>
      match decString r with
      | some (db, r1) =>
          match decString r1 with
          | some (c, r2) =>
              match decString r2 with
              | some (rid, r3) => some (.GetRecord db c rid, r3)
              | none => none
          | none => none
      | none => none
  | some (15, r) =>
      match decString r with
      | some (db, r1) =>
          match decString r1 with
          | some (c, r2) =>
              match decString r2 with
              | some (rid, r3) =>
                  match decBool r3 with
                  | some (casc, r4) => some (.DeleteRecord db c rid casc, r4)
                  | none => none
              | none => none
          | none => none
      | none => none
  | some (16, r) => some (.GetLastInsertId, r)
  | some (17, r) =>
      match decString r with
      | some (db, r1) =>
          match decString r1 with
          | some (c, r2) =>
              match decFilter maxD jf r2 with
              | some (fl, r3) =>
                  match decOpt decQueryOptions r3 with
                  | some (opts, r4) => some (.FindRecords db c fl opts, r4)
                  | none => none
              | none => none
          | none => none
      | none => none
  | some (18, r) =>
      match decString r with
      | some (db, r1) =>
          match decString r1 with
          | some (c, r2) =>
              match decFilter maxD jf r2 with
              | some (fl, r3) => some (.CountRecords db c fl, r3)
              | none => none
          | none => none
      | none => none
  | some (19, r) =>
      match decString r with
      | some (db, r1) =>
          match decString r1 with
          | some (pc, r2) =>
              match decString r2 with
              | some (pid, r3) =>
                  match decString r3 with
                  | some (rkf, r4) =>
                      match decString r4 with
                      | some (rc, r5) => some (.GetRecordWithRelated db pc pid rkf rc, r5)
                      | none => none
                  | none => none
              | none => none
          | none => none
      | none => none
  | some (20, r) =>
      match decBatchRequest r with
      | some (batch, r1) => some (.ExecuteBatchGet batch, r1)
      | none => none
  | _ => none

theorem decRequest_encRequest (r : Request) (maxD jf : Nat)
    (hwf : wfRequest r = true) (hfd : reqFDepth r ≤ maxD)
    (hjd : reqJDepth r ≤ jf) (rest : List Nat) :
    decRequest maxD jf (encRequest r ++ rest) = some (r, rest) := by
  cases r with
  | CreateDatabase db =>
      simp only [wfRequest, wfStr, decide_eq_true_eq] at hwf
      simp [encRequest, requestTag, encRequestPayload, decRequest,
        List.append_assoc, decU32_encU32 0 (by norm_num),
        decString_encString db hwf]
  | DropDatabase db =>
      simp only [wfRequest, wfStr, decide_eq_true_eq] at hwf
      simp [encRequest, requestTag, encRequestPayload, decRequest,
        List.append_assoc, decU32_encU32 1 (by norm_num),
        decString_encString db hwf]
  | ListDatabases =>
      simp [encRequest, requestTag, encRequestPayload, decRequest,
        decU32_encU32 2 (by norm_num)]
  | ListCollections =>
      simp [encRequest, requestTag, encRequestPayload, decRequest,
        decU32_encU32 3 (by norm_num)]
  | CreateCollection db cn =>
      simp only [wfRequest, wfStr, Bool.and_eq_true, decide_eq_true_eq] at hwf
      simp [encRequest, requestTag, encRequestPayload, decRequest,
        List.append_assoc, decU32_encU32 4 (by norm_num),
        decString_encString db hwf.1, decString_encString cn hwf.2]
  | DropCollection db cn =>
      simp only [wfRequest, wfStr, Bool.and_eq_true, decide_eq_true_eq] at hwf
      simp [encRequest, requestTag, encRequestPayload, decRequest,
        List.append_assoc, decU32_encU32 5 (by norm_num),
        decString_encString db hwf.1, decString_encString cn hwf.2]
  | GetStats =>
      simp [encRequest, requestTag, encRequestPayload, decRequest,
        decU32_encU32 6 (by norm_num)]
  | Flush =>
      simp [encRequest, requestTag, encRequestPayload, decRequest,
        decU32_encU32 7 (by norm_num)]
  | CreateIndex db c fname =>
      simp only [wfRequest, wfStr, Bool.and_eq_true, decide_eq_true_eq] at hwf
      simp [encRequest, requestTag, encRequestPayload, decRequest,
        List.append_assoc, decU32_encU32 8 (by norm_num),
        decString_encString db hwf.1.1, decString_encString c hwf.1.2,
        decString_encString fname hwf.2]
  | DropIndex db c fname =>
      simp only [wfRequest, wfStr, Bool.and_eq_true, decide_eq_true_eq] at hwf
      simp [encRequest, requestTag, encRequestPayload, decRequest,
        List.append_assoc, decU32_encU32 9 (by norm_num),
        decString_encString db hwf.1.1, decString_encString c hwf.1.2,
        decString_encString fname hwf.2]
  | ListIndexes db c =>
      simp only [wfRequest, wfStr, Bool.and_eq_true, decide_eq_true_eq] at hwf
      simp [encRequest, requestTag, encRequestPayload, decRequest,
        List.append_assoc, decU32_encU32 10 (by norm_num),
        decString_encString db hwf.1, decString_encString c hwf.2]
  | CreateRecord db c rid data =>
      simp only [wfRequest, wfStr, Bool.and_eq_true, decide_eq_true_eq] at hwf
      simp only [reqJDepth] at hjd
      simp [encRequest, requestTag, encRequestPayload, decRequest,
        List.append_assoc, decU32_encU32 11 (by norm_num),
        decString_encString db hwf.1.1.1, decString_encString c hwf.1.1.2,
        decString_encString rid hwf.1.2,
        decRecord_encRecord data jf hwf.2 hjd]
  | UpdateRecord db c rid data =>
      simp only [wfRequest, wfStr, Bool.and_eq_true, decide_eq_true_eq] at hwf
      simp only [reqJDepth] at hjd
      simp [encRequest, requestTag, encRequestPayload, decRequest,
        List.append_assoc, decU32_encU32 12 (by norm_num),
        decString_encString db hwf.1.1.1, decString_encString c hwf.1.1.2,
        decString_encString rid hwf.1.2,
        decRecord_encRecord data jf hwf.2 hjd]
  | UpsertRecord db c rid data =>
      simp only [wfRequest, wfStr, Bool.and_eq_true, decide_eq_true_eq] at hwf
      simp only [reqJDepth] at hjd
      simp [encRequest, requestTag, encRequestPayload, decRequest,
        List.append_assoc, decU32_encU32 13 (by norm_num),
        decString_encString db hwf.1.1.1, decString_encString c hwf.1.1.2,
        decString_encString rid hwf.1.2,
        decRecord_encRecord data jf hwf.2 hjd]
  | GetRecord db c rid =>
      simp only [wfRequest, wfStr, Bool.and_eq_true, decide_eq_true_eq] at hwf
      simp [encRequest, requestTag, encRequestPayload, decRequest,
        List.append_assoc, decU32_encU32 14 (by norm_num),
        decString_encString db hwf.1.1, decString_encString c hwf.1.2,
        decString_encString rid hwf.2]
  | DeleteRecord db c rid casc =>
      simp only [wfRequest, wfStr, Bool.and_eq_true, decide_eq_true_eq] at hwf
      simp [encRequest, requestTag, encRequestPayload, decRequest,
        List.append_assoc, decU32_encU32 15 (by norm_num),
        decString_encString db hwf.1.1, decString_encString c hwf.1.2,
        decString_encString rid hwf.2, decBool_encBool casc]
  | GetLastInsertId =>
      simp [encRequest, requestTag, encRequestPayload, decRequest,
        decU32_encU32 16 (by norm_num)]
  | FindRecords db c fl opts =>
      simp only [wfRequest, wfStr, Bool.and_eq_true, decide_eq_true_eq] at hwf
      simp only [reqFDepth] at hfd
      simp only [reqJDepth] at hjd
      have hopts : ∀ t, decOpt decQueryOptions (encOpt encQueryOptions opts ++ t)
          = some (opts, t) := by
        intro t
        refine decOpt_encOpt _ _ _ _ ?_
        intro o ho r2
        have ho2 : opts = some o := ho
        subst ho2
        exact decQueryOptions_encQueryOptions o (by simpa using hwf.2) r2
      simp [encRequest, requestTag, encRequestPayload, decRequest,
        List.append_assoc, decU32_encU32 17 (by norm_num),
        decString_encString db hwf.1.1.1, decString_encString c hwf.1.1.2,
        decFilter_encFilter fl maxD jf hwf.1.2 hfd hjd, hopts]
  | CountRecords db c fl =>
      simp only [wfRequest, wfStr, Bool.and_eq_true, decide_eq_true_eq] at hwf
      simp only [reqFDepth] at hfd
      simp only [reqJDepth] at hjd
      simp [encRequest, requestTag, encRequestPayload, decRequest,
        List.append_assoc, decU32_encU32 18 (by norm_num),
        decString_encString db hwf.1.1, decString_encString c hwf.1.2,
        decFilter_encFilter fl maxD jf hwf.2 hfd hjd]
  | GetRecordWithRelated db pc pid rkf rc =>
      simp only [wfRequest, wfStr, Bool.and_eq_true, decide_eq_true_eq] at hwf
      simp [encRequest, requestTag, encRequestPayload, decRequest,
        List.append_assoc, decU32_encU32 19 (by norm_num),
        decString_encString db hwf.1.1.1.1, decString_encString pc hwf.1.1.1.2,
        decString_encString pid hwf.1.1.2, decString_encString rkf hwf.1.2,
        decString_encString rc hwf.2]
  | ExecuteBatchGet batch =>
      simp only [wfRequest] at hwf
      simp [encRequest, requestTag, encRequestPayload, decRequest,
        List.append_assoc, decU32_encU32 20 (by norm_num),
        decBatchRequest_encBatchRequest batch hwf]

/-! ## Response codec -/

/-- `QueryMetrics` (`src/response.rs` lines 10–14). -/
def encQueryMetrics (m : QueryMetrics) : List Nat :=
  encU64 m.execution_time_micros

def decQueryMetrics (bs : List Nat) : Option (QueryMetrics × List Nat) :=
  match decU64 bs with
  | some (n, r) => some (QueryMetrics.mk n, r)
  | none => none

theorem decQueryMetrics_encQueryMetrics (m : QueryMetrics)
    (h : m.execution_time_micros < 2 ^ 64) (rest : List Nat) :
    decQueryMetrics (encQueryMetrics m ++ rest) = some (m, rest) := by
  obtain ⟨n⟩ := m
  simp [decQueryMetrics, encQueryMetrics, decU64_encU64 _ h]

/-- The golden discriminant table for `Response` (`src/response.rs`
lines 17–48, declaration order). -/
def responseTag : Response → Nat
  | .Success => 0
  | .Error _ => 1
  | .DatabaseList _ => 2
  | .DatabaseCreated _ => 3
  | .DatabaseDropped _ => 4
  | .CollectionList _ => 5
  | .Stats _ => 6
  | .IndexList _ => 7
  | .Record _ => 8
  | .RecordSet _ => 9
  | .RecordCount _ => 10
  | .RecordDeleted _ => 11
  | .LastInsertId _ => 12
  | .RecordWithRelated _ => 13
  | .BatchResponse _ => 14
  | .RecordIdSet _ => 15
  | .ResultMetrics _ _ => 16

def encResponsePayload : Response → List Nat
  | .Success => []
  | .Error msg => encString msg
  | .DatabaseList names => encList encString names
  | .DatabaseCreated b => encBool b
  | .DatabaseDropped b => encBool b
  | .CollectionList names => encList encString names
  | .Stats st => encDbStats st
  | .IndexList names => encList encString names
  | .Record rec => encOpt encRecord rec
  | .RecordSet rs => encRecordSet rs
  | .RecordCount n => encU64 n
  | .RecordDeleted b => encBool b
  | .LastInsertId n => encU64 n
  | .RecordWithRelated p => encOpt (encPair encRecord encRecord) p
  | .BatchResponse b => encBatchResponse b
  | .RecordIdSet ids => encList encString ids
  | .ResultMetrics data m =>
      encU32 (responseTag data) ++ encResponsePayload data ++ encQueryMetrics m

/-- Canonical binary encoding of a `Response`: discriminant then
payload. -/
def encResponse (r : Response) : List Nat :=
  encU32 (responseTag r) ++ encResponsePayload r

theorem encResponse_eq (r : Response) :
    encResponse r = encU32 (responseTag r) ++ encResponsePayload r := rfl

/-- `ResultMetrics` nesting depth of a response. -/
def respDepth : Response → Nat
  | .ResultMetrics data _ => 1 + respDepth data
  | _ => 1

/-- Depth of the deepest `Json` payload in the response. -/
def respJDepth : Response → Nat
  | .Record none => 0
  | .Record (some rec) => jdepthObj rec
  | .RecordSet rs => jdepthRecords rs.records
  | .RecordWithRelated none => 0
  | .RecordWithRelated (some (a, b)) => max (jdepthObj a) (jdepthObj b)
  | .BatchResponse b => jdepthResults b.results
  | .ResultMetrics data _ => respJDepth data
  | _ => 0

def wfResponse : Response → Bool
  | .Success => true
  | .Error msg => wfStr msg
  | .DatabaseList names => decide (names.length < 2 ^ 64) && wfStrings names
  | .DatabaseCreated _ => true
  | .DatabaseDropped _ => true
  | .CollectionList names => decide (names.length < 2 ^ 64) && wfStrings names
  | .Stats st => wfDbStats st
  | .IndexList names => decide (names.length < 2 ^ 64) && wfStrings names
  | .Record rec => (match rec with | none => true | some r => wfRecord r)
  | .RecordSet rs => wfRecordSet rs
  | .RecordCount n => decide (n < 2 ^ 64)
  | .RecordDeleted _ => true
  | .LastInsertId n => decide (n < 2 ^ 64)
  | .RecordWithRelated p =>
      (match p with | none => true | some (a, b) => wfRecord a && wfRecord b)
  | .BatchResponse b => wfBatchResponse b
  | .RecordIdSet ids => decide (ids.length < 2 ^ 64) && wfStrings ids
  | .ResultMetrics data m => wfResponse data && decide (m.execution_time_micros < 2 ^ 64)

def decResponse : Nat → Nat → List Nat → Option (Response × List Nat)
  | 0, _, _ => none
  | fuel + 1, jf, bs =>
      match decU32 bs with
      | some (0, r) => some (.Success, r)
      | some (1, r) =>
          match decString r with
          | some (msg, r1) => some (.Error msg, r1)
          | none => none
      | some (2, r) =>
          match decList decString r with
          | some (names, r1) => some (.DatabaseList names, r1)
          | none => none
      | some (3, r) =>
          match decBool r with
          | some (b, r1) => some (.DatabaseCreated b, r1)
          | none => none
      | some (4, r) =>
          match decBool r with
          | some (b, r1) => some (.DatabaseDropped b, r1)
          | none => none
      | some (5, r) =>
          match decList decString r with
          | some (names, r1) => some (.CollectionList names, r1)
          | none => none
      | some (6, r) =>
          match decDbStats r with
          | some (st, r1) => some (.Stats st, r1)
          | none => none
      | some (7, r) =>
          match decList decString r with
          | some (names, r1) => some (.IndexList names, r1)
          | none => none
      | some (8, r) =>
          match decOpt (decRecord jf) r with
          | some (rec, r1) => some (.Record rec, r1)
          | none => none
      | some (9, r) =>
          match decRecordSet jf r with
          | some (rs, r1) => some (.RecordSet rs, r1)
          | none => none
      | some (10, r) =>
          match decU64 r with
          | some (n, r1) => some (.RecordCount n, r1)
          | none => none
      | some (11, r) =>
          match decBool r with
          | some (b, r1) => some (.RecordDeleted b, r1)
          | none => none
      | some (12, r) =>
          match decU64 r with
          | some (n, r1) => some (.LastInsertId n, r1)
          | none => none
      | some (13, r) =>
          match decOpt (decPair (decRecord jf) (decRecord jf)) r with
          | some (p, r1) => some (.RecordWithRelated p, r1)
          | none => none
      | some (14, r) =>
          match decBatchResponse jf r with
          | some (b, r1) => some (.BatchResponse b, r1)
          | none => none
      | some (15, r) =>
          match decList decString r with
          | some (ids, r1) => some (.RecordIdSet ids, r1)
          | none => none
      | some (16, r) =>
          match decResponse fuel jf r with
          | some (data, r1) =>
              match decQueryMetrics r1 with
              | some (m, r2) => some (.ResultMetrics data m, r2)
              | none => none
          | none => none
      | _ => none

theorem respDepth_pos (r : Response) : 1 ≤ respDepth r := by
  cases r <;> simp [respDepth]

theorem decResponse_encResponse (r : Response) (fuel jf : Nat)
    (hwf : wfResponse r = true) (hd : respDepth r ≤ fuel)
    (hj : respJDepth r ≤ jf) (rest : List Nat) :
    decResponse fuel jf (encResponse r ++ rest) = some (r, rest) := by
  cases fuel with
  | zero => exact absurd hd (by have := respDepth_pos r; omega)
  | succ f =>
      cases r with
      | Success =>
          simp [encResponse, responseTag, encResponsePayload, decResponse,
            decU32_encU32 0 (by norm_num)]
      | Error msg =>
          simp only [wfResponse, wfStr, decide_eq_true_eq] at hwf
          simp [encResponse, responseTag, encResponsePayload, decResponse,
            List.append_assoc, decU32_encU32 1 (by norm_num),
            decString_encString msg hwf]
      | DatabaseList names =>
          simp only [wfResponse, Bool.and_eq_true, decide_eq_true_eq] at hwf
          simp [encResponse, responseTag, encResponsePayload, decResponse,
            List.append_assoc, decU32_encU32 2 (by norm_num),
            decList_encList_strings names rest hwf.1 hwf.2]
      | DatabaseCreated b =>
          simp [encResponse, responseTag, encResponsePayload, decResponse,
            List.append_assoc, decU32_encU32 3 (by norm_num), decBool_encBool b]
      | DatabaseDropped b =>
          simp [encResponse, responseTag, encResponsePayload, decResponse,
            List.append_assoc, decU32_encU32 4 (by norm_num), decBool_encBool b]
      | CollectionList names =>
          simp only [wfResponse, Bool.and_eq_true, decide_eq_true_eq] at hwf
          simp [encResponse, responseTag, encResponsePayload, decResponse,
            List.append_assoc, decU32_encU32 5 (by norm_num),
            decList_encList_strings names rest hwf.1 hwf.2]
      | Stats st =>
          simp only [wfResponse] at hwf
          simp [encResponse, responseTag, encResponsePayload, decResponse,
            List.append_assoc, decU32_encU32 6 (by norm_num),
            decDbStats_encDbStats st hwf]
      | IndexList names =>
          simp only [wfResponse, Bool.and_eq_true, decide_eq_true_eq] at hwf
          simp [encResponse, responseTag, encResponsePayload, decResponse,
            List.append_assoc, decU32_encU32 7 (by norm_num),
            decList_encList_strings names rest hwf.1 hwf.2]
      | Record rec =>
          cases rec with
          | none =>
              simp [encResponse, responseTag, encResponsePayload, decResponse,
                List.append_assoc, decU32_encU32 8 (by norm_num), encOpt, decOpt]
          | some rec2 =>
              simp only [wfResponse] at hwf
              simp only [respJDepth] at hj
              simp [encResponse, responseTag, encResponsePayload, decResponse,
                List.append_assoc, decU32_encU32 8 (by norm_num), encOpt, decOpt,
                decRecord_encRecord rec2 jf hwf hj]
      | RecordSet rs =>
          simp only [wfResponse] at hwf
          simp only [respJDepth] at hj
          simp [encResponse, responseTag, encResponsePayload, decResponse,
            List.append_assoc, decU32_encU32 9 (by norm_num),
            decRecordSet_encRecordSet rs jf hwf hj]
      | RecordCount n =>
          simp only [wfResponse, decide_eq_true_eq] at hwf
          simp [encResponse, responseTag, encResponsePayload, decResponse,
            List.append_assoc, decU32_encU32 10 (by norm_num),
            decU64_encU64 _ hwf]
      | RecordDeleted b =>
          simp [encResponse, responseTag, encResponsePayload, decResponse,
            List.append_assoc, decU32_encU32 11 (by norm_num), decBool_encBool b]
      | LastInsertId n =>
          simp only [wfResponse, decide_eq_true_eq] at hwf
          simp [encResponse, responseTag, encResponsePayload, decResponse,
            List.append_assoc, decU32_encU32 12 (by norm_num),
            decU64_encU64 _ hwf]
      | RecordWithRelated p =>
          cases p with
          | none =>
              simp [encResponse, responseTag, encResponsePayload, decResponse,
                List.append_assoc, decU32_encU32 13 (by norm_num), encOpt, decOpt]
          | some ab =>
              obtain ⟨a, b⟩ := ab
              simp only [wfResponse, Bool.and_eq_true] at hwf
              simp only [respJDepth, Nat.max_le] at hj
              simp [encResponse, responseTag, encResponsePayload, decResponse,
                List.append_assoc, decU32_encU32 13 (by norm_num), encOpt, decOpt,
                decPair_encPair (decRecord jf) (decRecord jf) encRecord encRecord (a, b) _
                  (fun r2 => decRecord_encRecord a jf hwf.1 hj.1 r2)
                  (fun r2 => decRecord_encRecord b jf hwf.2 hj.2 r2)]
      | BatchResponse b =>
          simp only [wfResponse] at hwf
          simp only [respJDepth] at hj
          simp [encResponse, responseTag, encResponsePayload, decResponse,
            List.append_assoc, decU32_encU32 14 (by norm_num),
            decBatchResponse_encBatchResponse b jf hwf hj]
      | RecordIdSet ids =>
          simp only [wfResponse, Bool.and_eq_true, decide_eq_true_eq] at hwf
          simp [encResponse, responseTag, encResponsePayload, decResponse,
            List.append_assoc, decU32_encU32 15 (by norm_num),
            decList_encList_strings ids rest hwf.1 hwf.2]
      | ResultMetrics data m =>
          simp only [wfResponse, Bool.and_eq_true, decide_eq_true_eq] at hwf
          have hd1 : respDepth data ≤ f := by
            simp only [respDepth] at hd; omega
          simp only [respJDepth] at hj
          have henc : encResponse (.ResultMetrics data m)
              = encU32 16 ++ (encResponse data ++ encQueryMetrics m) := by
            simp [encResponse, responseTag, encResponsePayload, List.append_assoc]
          rw [henc]
          simp [decResponse, List.append_assoc, decU32_encU32 16 (by norm_num),
            decResponse_encResponse data f jf hwf.1 hd1 hj,
            decQueryMetrics_encQueryMetrics m hwf.2]

/-! ## Fuel justification

Every `Json` node occupies at least one byte of its encoding, so the
input length always suffices as decoder fuel for a canonical
encoding. -/

mutual

theorem jdepth_le_encJson (j : Json) : jdepth j ≤ (encJson j).length := by
  cases j with
  | arr items =>
      have := jdepthList_le_encJsonList items
      simp only [jdepth, encJson, List.length_append, encU32, encU64,
        List.length_cons, List.length_nil]
      omega
  | obj entries =>
      have := jdepthObj_le_encJsonObj entries
      simp only [jdepth, encJson, List.length_append, encU32, encU64,
        List.length_cons, List.length_nil]
      omega
  | null => simp [jdepth, encJson, encU32]
  | bool b => simp [jdepth, encJson, encU32, encBool]
  | int n => simp [jdepth, encJson, encU32, encI64, encU64]
  | double bits => simp [jdepth, encJson, encU32, encU64]
  | str s => simp [jdepth, encJson, encU32]

theorem jdepthList_le_encJsonList (js : List Json) :
    jdepthList js ≤ (encJsonList js).length := by
  cases js with
  | nil => simp [jdepthList, encJsonList]
  | cons j js =>
      have h1 := jdepth_le_encJson j
      have h2 := jdepthList_le_encJsonList js
      simp only [jdepthList, encJsonList, List.length_append]
      omega

theorem jdepthObj_le_encJsonObj (kvs : List (String × Json)) :
    jdepthObj kvs ≤ (encJsonObj kvs).length := by
  cases kvs with
  | nil => simp [jdepthObj, encJsonObj]
  | cons kv kvs =>
      obtain ⟨k, v⟩ := kv
      have h1 := jdepth_le_encJson v
      have h2 := jdepthObj_le_encJsonObj kvs
      simp only [jdepthObj, encJsonObj, List.length_append]
      omega

end

mutual

theorem fjdepth_le_encFilter (f : Filter) : fjdepth f ≤ (encFilter f).length := by
  cases f with
  | Equals field value =>
      have := jdepth_le_encJson value
      simp only [fjdepth, encFilter, List.length_append]
      omega
  | NotEquals field value =>
      have := jdepth_le_encJson value
      simp only [fjdepth, encFilter, List.length_append]
      omega
  | GreaterThan field value => simp [fjdepth]
  | LessThan field value => simp [fjdepth]
  | In field values =>
      have := jdepthList_le_encJsonList values
      simp only [fjdepth, encFilter, List.length_append]
      omega
  | And filters =>
      have := fjdepthList_le_encFilterList filters
      simp only [fjdepth, encFilter, List.length_append]
      omega
  | Or filters =>
      have := fjdepthList_le_encFilterList filters
      simp only [fjdepth, encFilter, List.length_append]
      omega

theorem fjdepthList_le_encFilterList (fs : List Filter) :
    fjdepthList fs ≤ (encFilterList fs).length := by
  cases fs with
  | nil => simp [fjdepthList, encFilterList]
  | cons f fs =>
      have h1 := fjdepth_le_encFilter f
      have h2 := fjdepthList_le_encFilterList fs
      simp only [fjdepthList, encFilterList, List.length_append]
      omega

end

theorem jdepthObj_le_encRecord (r : Record) : jdepthObj r ≤ (encRecord r).length := by
  have := jdepthObj_le_encJsonObj r
  simp only [encRecord, List.length_append]
  omega

theorem jdepthRecords_le_encListBody (rs : List Record) :
    jdepthRecords rs ≤ (encListBody encRecord rs).length := by
  induction rs with
  | nil => simp [jdepthRecords, encListBody]
  | cons r rs ih =>
      have h1 := jdepthObj_le_encRecord r
      simp only [jdepthRecords, encListBody, List.length_append]
      omega

theorem jdepthResults_le_encListBody (es : List (String × Option Record)) :
    jdepthResults es
      ≤ (encListBody (encPair encString (encOpt encRecord)) es).length := by
  induction es with
  | nil => simp [jdepthResults, encListBody]
  | cons e es ih =>
      obtain ⟨k, rv⟩ := e
      cases rv with
      | none =>
          simp only [jdepthResults, encListBody, List.length_append]
          omega
      | some rec =>
          have h1 := jdepthObj_le_encRecord rec
          simp only [jdepthResults, encListBody, List.length_append, encPair,
            encOpt, List.length_cons]
          omega

theorem reqJDepth_le_encRequest (r : Request) :
    reqJDepth r ≤ (encRequest r).length := by
  cases r with
  | CreateRecord db c rid data =>
      have := jdepthObj_le_encRecord data
      simp only [reqJDepth, encRequest, encRequestPayload, List.length_append]
      omega
  | UpdateRecord db c rid data =>
      have := jdepthObj_le_encRecord data
      simp only [reqJDepth, encRequest, encRequestPayload, List.length_append]
      omega
  | UpsertRecord db c rid data =>
      have := jdepthObj_le_encRecord data
      simp only [reqJDepth, encRequest, encRequestPayload, List.length_append]
      omega
  | FindRecords db c fl opts =>
      have := fjdepth_le_encFilter fl
      simp only [reqJDepth, encRequest, encRequestPayload, List.length_append]
      omega
  | CountRecords db c fl =>
      have := fjdepth_le_encFilter fl
      simp only [reqJDepth, encRequest, encRequestPayload, List.length_append]
      omega
  | _ => simp [reqJDepth]

theorem respJDepth_le_encResponse (r : Response) :
    respJDepth r ≤ (encResponse r).length := by
  cases r with
  | Record rec =>
      cases rec with
      | none => simp [respJDepth]
      | some rec2 =>
          have := jdepthObj_le_encRecord rec2
          simp only [respJDepth, encResponse, encResponsePayload,
            List.length_append, encOpt, List.length_cons]
          omega
  | RecordSet rs =>
      have := jdepthRecords_le_encListBody rs.records
      simp only [respJDepth, encResponse, encResponsePayload, encRecordSet,
        encList, List.length_append]
      omega
  | RecordWithRelated p =>
      cases p with
      | none => simp [respJDepth]
      | some ab =>
          obtain ⟨a, b⟩ := ab
          have h1 := jdepthObj_le_encRecord a
          have h2 := jdepthObj_le_encRecord b
          simp only [respJDepth, encResponse, encResponsePayload,
            List.length_append, encOpt, encPair, List.length_cons]
          omega
  | BatchResponse b =>
      have := jdepthResults_le_encListBody b.results
      simp only [respJDepth, encResponse, encResponsePayload, encBatchResponse,
        encList, List.length_append]
      omega
  | ResultMetrics data m =>
      have h1 := respJDepth_le_encResponse data
      have hlen : (encResponse (.ResultMetrics data m)).length
          = 4 + ((encResponse data).length + (encQueryMetrics m).length) := by
        simp only [encResponse, encResponsePayload, responseTag, encU32,
          List.length_append, List.length_cons, List.length_nil]
      simp only [respJDepth]
      omega
  | _ => simp [respJDepth]

theorem respDepth_le_encResponse (r : Response) :
    respDepth r ≤ (encResponse r).length := by
  cases r with
  | ResultMetrics data m =>
      have h1 := respDepth_le_encResponse data
      have hlen : (encResponse (.ResultMetrics data m)).length
          = 4 + ((encResponse data).length + (encQueryMetrics m).length) := by
        simp only [encResponse, encResponsePayload, responseTag, encU32,
          List.length_append, List.length_cons, List.length_nil]
      simp only [respDepth]
      omega
  | Success =>
      simp [respDepth, encResponse, encResponsePayload, encU32]
  | Error msg =>
      simp [respDepth, encResponse, encResponsePayload, encU32]
  | DatabaseList names =>
      simp [respDepth, encResponse, encResponsePayload, encU32]
  | DatabaseCreated b =>
      simp [respDepth, encResponse, encResponsePayload, encU32]
  | DatabaseDropped b =>
      simp [respDepth, encResponse, encResponsePayload, encU32]
  | CollectionList names =>
      simp [respDepth, encResponse, encResponsePayload, encU32]
  | Stats st =>
      simp [respDepth, encResponse, encResponsePayload, encU32]
  | IndexList names =>
      simp [respDepth, encResponse, encResponsePayload, encU32]
  | Record rec =>
      simp [respDepth, encResponse, encResponsePayload, encU32]
  | RecordSet rs =>
      simp [respDepth, encResponse, encResponsePayload, encU32]
  | RecordCount n =>
      simp [respDepth, encResponse, encResponsePayload, encU32]
  | RecordDeleted b =>
      simp [respDepth, encResponse, encResponsePayload, encU32]
  | LastInsertId n =>
      simp [respDepth, encResponse, encResponsePayload, encU32]
  | RecordWithRelated p =>
      simp [respDepth, encResponse, encResponsePayload, encU32]
  | BatchResponse b =>
      simp [respDepth, encResponse, encResponsePayload, encU32]
  | RecordIdSet ids =>
      simp [respDepth, encResponse, encResponsePayload, encU32]

/-! ## Configured top-level decode (spec §5 resource bounds)

A decoder is configured with the maximum `Filter` nesting depth
(recommended 64) and the maximum total encoded message size
(recommended 64 MiB).  The size check happens before anything is
examined; a decode succeeds only when it consumes the whole message. -/

structure DecodeCfg where
  max_filter_depth : Nat
  max_message_size : Nat
deriving Repr

/-- The spec's recommended configuration: depth 64, size 64 MiB. -/
def recommendedCfg : DecodeCfg :=
  { max_filter_depth := 64, max_message_size := 64 * 1024 * 1024 }

def decodeBinaryRequest (cfg : DecodeCfg) (bs : List Nat) : Option Request :=
  if cfg.max_message_size < bs.length then none
  else
    match decRequest cfg.max_filter_depth bs.length bs with
    | some (r, []) => some r
    | _ => none

def decodeBinaryResponse (cfg : DecodeCfg) (bs : List Nat) : Option Response :=
  if cfg.max_message_size < bs.length then none
  else
    match decResponse bs.length bs.length bs with
    | some (r, []) => some r
    | _ => none

def decodeBinaryRecord (cfg : DecodeCfg) (bs : List Nat) : Option Record :=
  if cfg.max_message_size < bs.length then none
  else
    match decRecord bs.length bs with
    | some (r, []) => some r
    | _ => none

def decodeBinaryRecordSet (cfg : DecodeCfg) (bs : List Nat) : Option RecordSet :=
  if cfg.max_message_size < bs.length then none
  else
    match decRecordSet bs.length bs with
    | some (r, []) => some r
    | _ => none

def decodeBinaryFilter (cfg : DecodeCfg) (bs : List Nat) : Option Filter :=
  if cfg.max_message_size < bs.length then none
  else
    match decFilter cfg.max_filter_depth bs.length bs with
    | some (r, []) => some r
    | _ => none

def decodeBinaryQueryOptions (cfg : DecodeCfg) (bs : List Nat) : Option QueryOptions :=
  if cfg.max_message_size < bs.length then none
  else
    match decQueryOptions bs with
    | some (r, []) => some r
    | _ => none

def decodeBinaryDbStats (cfg : DecodeCfg) (bs : List Nat) : Option DbStats :=
  if cfg.max_message_size < bs.length then none
  else
    match decDbStats bs with
    | some (r, []) => some r
    | _ => none

def decodeBinaryBatchRequest (cfg : DecodeCfg) (bs : List Nat) : Option BatchRequest :=
  if cfg.max_message_size < bs.length then none
  else
    match decBatchRequest bs with
    | some (r, []) => some r
    | _ => none

def decodeBinaryBatchResponse (cfg : DecodeCfg) (bs : List Nat) : Option BatchResponse :=
  if cfg.max_message_size < bs.length then none
  else
    match decBatchResponse bs.length bs with
    | some (r, []) => some r
    | _ => none

/-! Whole-message round trips through the configured decoders. -/

theorem decodeBinaryRequest_enc (cfg : DecodeCfg) (r : Request)
    (hwf : wfRequest r = true) (hfd : reqFDepth r ≤ cfg.max_filter_depth)
    (hsz : (encRequest r).length ≤ cfg.max_message_size) :
    decodeBinaryRequest cfg (encRequest r) = some r := by
  unfold decodeBinaryRequest
  rw [if_neg (by omega)]
  have h := decRequest_encRequest r cfg.max_filter_depth
    (encRequest r ++ []).length hwf hfd
    (by
      have h1 := reqJDepth_le_encRequest r
      simp only [List.append_nil]
      omega) []
  rw [show encRequest r = encRequest r ++ [] from (List.append_nil _).symm, h]

theorem decodeBinaryResponse_enc (cfg : DecodeCfg) (r : Response)
    (hwf : wfResponse r = true)
    (hsz : (encResponse r).length ≤ cfg.max_message_size) :
    decodeBinaryResponse cfg (encResponse r) = some r := by
  unfold decodeBinaryResponse
  rw [if_neg (by omega)]
  have h := decResponse_encResponse r (encResponse r ++ []).length
    (encResponse r ++ []).length hwf
    (by
      have h1 := respDepth_le_encResponse r
      simp only [List.append_nil]
      omega)
    (by
      have h1 := respJDepth_le_encResponse r
      simp only [List.append_nil]
      omega) []
  rw [show encResponse r = encResponse r ++ [] from (List.append_nil _).symm, h]

theorem decodeBinaryRecord_enc (cfg : DecodeCfg) (r : Record)
    (hwf : wfRecord r = true)
    (hsz : (encRecord r).length ≤ cfg.max_message_size) :
    decodeBinaryRecord cfg (encRecord r) = some r := by
  unfold decodeBinaryRecord
  rw [if_neg (by omega)]
  have h := decRecord_encRecord r (encRecord r ++ []).length hwf
    (by
      have h1 := jdepthObj_le_encRecord r
      simp only [List.append_nil]
      omega) []
  rw [show encRecord r = encRecord r ++ [] from (List.append_nil _).symm, h]

theorem decodeBinaryRecordSet_enc (cfg : DecodeCfg) (r : RecordSet)
    (hwf : wfRecordSet r = true)
    (hsz : (encRecordSet r).length ≤ cfg.max_message_size) :
    decodeBinaryRecordSet cfg (encRecordSet r) = some r := by
  unfold decodeBinaryRecordSet
  rw [if_neg (by omega)]
  have h := decRecordSet_encRecordSet r (encRecordSet r ++ []).length hwf
    (by
      have h1 := jdepthRecords_le_encListBody r.records
      simp only [List.append_nil, encRecordSet, encList, List.length_append]
      omega) []
  rw [show encRecordSet r = encRecordSet r ++ [] from (List.append_nil _).symm, h]

theorem decodeBinaryFilter_enc (cfg : DecodeCfg) (f : Filter)
    (hwf : wfFilter f = true) (hfd : fdepth f ≤ cfg.max_filter_depth)
    (hsz : (encFilter f).length ≤ cfg.max_message_size) :
    decodeBinaryFilter cfg (encFilter f) = some f := by
  unfold decodeBinaryFilter
  rw [if_neg (by omega)]
  have h := decFilter_encFilter f cfg.max_filter_depth
    (encFilter f ++ []).length hwf hfd
    (by
      have h1 := fjdepth_le_encFilter f
      simp only [List.append_nil]
      omega) []
  rw [show encFilter f = encFilter f ++ [] from (List.append_nil _).symm, h]

theorem decodeBinaryQueryOptions_enc (cfg : DecodeCfg) (o : QueryOptions)
    (hwf : wfQueryOptions o = true)
    (hsz : (encQueryOptions o).length ≤ cfg.max_message_size) :
    decodeBinaryQueryOptions cfg (encQueryOptions o) = some o := by
  unfold decodeBinaryQueryOptions
  rw [if_neg (by omega)]
  have h := decQueryOptions_encQueryOptions o hwf []
  rw [show encQueryOptions o = encQueryOptions o ++ [] from (List.append_nil _).symm, h]

theorem decodeBinaryDbStats_enc (cfg : DecodeCfg) (st : DbStats)
    (hwf : wfDbStats st = true)
    (hsz : (encDbStats st).length ≤ cfg.max_message_size) :
    decodeBinaryDbStats cfg (encDbStats st) = some st := by
  unfold decodeBinaryDbStats
  rw [if_neg (by omega)]
  have h := decDbStats_encDbStats st hwf []
  rw [show encDbStats st = encDbStats st ++ [] from (List.append_nil _).symm, h]

theorem decodeBinaryBatchRequest_enc (cfg : DecodeCfg) (b : BatchRequest)
    (hwf : wfBatchRequest b = true)
    (hsz : (encBatchRequest b).length ≤ cfg.max_message_size) :
    decodeBinaryBatchRequest cfg (encBatchRequest b) = some b := by
  unfold decodeBinaryBatchRequest
  rw [if_neg (by omega)]
  have h := decBatchRequest_encBatchRequest b hwf []
  rw [show encBatchRequest b = encBatchRequest b ++ [] from (List.append_nil _).symm, h]

theorem decodeBinaryBatchResponse_enc (cfg : DecodeCfg) (b : BatchResponse)
    (hwf : wfBatchResponse b = true)
    (hsz : (encBatchResponse b).length ≤ cfg.max_message_size) :
    decodeBinaryBatchResponse cfg (encBatchResponse b) = some b := by
  unfold decodeBinaryBatchResponse
  rw [if_neg (by omega)]
  have h := decBatchResponse_encBatchResponse b (encBatchResponse b ++ []).length hwf
    (by
      have h1 := jdepthResults_le_encListBody b.results
      simp only [List.append_nil, encBatchResponse, encList, List.length_append]
      omega) []
  rw [show encBatchResponse b = encBatchResponse b ++ [] from (List.append_nil _).symm, h]

/-! Depth-exceeded failure propagates through request decoding. -/

theorem decRequest_encRequest_deep (r : Request) (maxD jf : Nat)
    (hwf : wfRequest r = true) (hjd : reqJDepth r ≤ jf)
    (hfd : maxD < reqFDepth r) (rest : List Nat) :
    decRequest maxD jf (encRequest r ++ rest) = none := by
  cases r with
  | FindRecords db c fl opts =>
      simp only [wfRequest, wfStr, Bool.and_eq_true, decide_eq_true_eq] at hwf
      simp only [reqFDepth] at hfd
      simp only [reqJDepth] at hjd
      simp [encRequest, requestTag, encRequestPayload, decRequest,
        List.append_assoc, decU32_encU32 17 (by norm_num),
        decString_encString db hwf.1.1.1, decString_encString c hwf.1.1.2,
        decFilter_encFilter_deep fl maxD jf hwf.1.2 hfd hjd]
  | CountRecords db c fl =>
      simp only [wfRequest, wfStr, Bool.and_eq_true, decide_eq_true_eq] at hwf
      simp only [reqFDepth] at hfd
      simp only [reqJDepth] at hjd
      simp [encRequest, requestTag, encRequestPayload, decRequest,
        List.append_assoc, decU32_encU32 18 (by norm_num),
        decString_encString db hwf.1.1, decString_encString c hwf.1.2,
        decFilter_encFilter_deep fl maxD jf hwf.2 hfd hjd]
  | CreateDatabase db => exact absurd hfd (by simp [reqFDepth])
  | DropDatabase db => exact absurd hfd (by simp [reqFDepth])
  | ListDatabases => exact absurd hfd (by simp [reqFDepth])
  | ListCollections => exact absurd hfd (by simp [reqFDepth])
  | CreateCollection db cn => exact absurd hfd (by simp [reqFDepth])
  | DropCollection db cn => exact absurd hfd (by simp [reqFDepth])
  | GetStats => exact absurd hfd (by simp [reqFDepth])
  | Flush => exact absurd hfd (by simp [reqFDepth])
  | CreateIndex db c fname => exact absurd hfd (by simp [reqFDepth])
  | DropIndex db c fname => exact absurd hfd (by simp [reqFDepth])
  | ListIndexes db c => exact absurd hfd (by simp [reqFDepth])
  | CreateRecord db c rid data => exact absurd hfd (by simp [reqFDepth])
  | UpdateRecord db c rid data => exact absurd hfd (by simp [reqFDepth])
  | UpsertRecord db c rid data => exact absurd hfd (by simp [reqFDepth])
  | GetRecord db c rid => exact absurd hfd (by simp [reqFDepth])
  | DeleteRecord db c rid casc => exact absurd hfd (by simp [reqFDepth])
  | GetLastInsertId => exact absurd hfd (by simp [reqFDepth])
  | GetRecordWithRelated db pc pid rkf rc => exact absurd hfd (by simp [reqFDepth])
  | ExecuteBatchGet batch => exact absurd hfd (by simp [reqFDepth])

/-! ## Structural JSON form (spec §6.2)

The developer-facing JSON encoding, modelled at the level of the JSON
value tree: tagged unions map to `{"<VariantName>": <payload>}` for
variants with payload and to the bare string `"<VariantName>"` for
nullary variants; struct variants and structs serialize as objects
with field names in declaration order; optional values map to `null`
or the payload.  The inverse parses exactly the canonical shapes the
forward direction produces. -/

def optToJson (f : α → Json) : Option α → Json
  | none => .null
  | some a => f a

def optFromJson (g : Json → Option α) : Json → Option (Option α)
  | .null => some none
  | j => (g j).map some

theorem optFromJson_not_null (g : Json → Option α) (j : Json) (h : j ≠ .null) :
    optFromJson g j = (g j).map some := by
  cases j with
  | null => exact absurd rfl h
  | bool b => rfl
  | int n => rfl
  | double bits => rfl
  | str s => rfl
  | arr items => rfl
  | obj entries => rfl

def natToJson (n : Nat) : Json :=
  .int n

def natFromJson : Json → Option Nat
  | .int m => if 0 ≤ m then some m.toNat else none
  | _ => none

theorem natFromJson_natToJson (n : Nat) : natFromJson (natToJson n) = some n := by
  simp [natFromJson, natToJson]

def strsToJson (ss : List String) : Json :=
  .arr (ss.map .str)

def strListFromJson : List Json → Option (List String)
  | [] => some []
  | .str s :: js => (strListFromJson js).map (s :: ·)
  | _ => none

def strsFromJson : Json → Option (List String)
  | .arr js => strListFromJson js
  | _ => none

theorem strsFromJson_strsToJson (ss : List String) :
    strsFromJson (strsToJson ss) = some ss := by
  simp only [strsFromJson, strsToJson]
  induction ss with
  | nil => rfl
  | cons s ss ih => simp [strListFromJson, ih]

/-- `Record` is already a JSON object. -/
def recToJson (r : Record) : Json :=
  .obj r

def recFromJson : Json → Option Record
  | .obj kvs => some kvs
  | _ => none

theorem recFromJson_recToJson (r : Record) : recFromJson (recToJson r) = some r := rfl

def recListFromJson : List Json → Option (List Record)
  | [] => some []
  | j :: js =>
      match recFromJson j with
      | some r =>
          match recListFromJson js with
          | some rs => some (r :: rs)
          | none => none
      | none => none

theorem recListFromJson_map (rs : List Record) :
    recListFromJson (rs.map recToJson) = some rs := by
  induction rs with
  | nil => rfl
  | cons r rs ih => simp [recListFromJson, recFromJson_recToJson, ih, recToJson, recFromJson]

/-- `RecordSet`: a struct, one field named `records`. -/
def rsToJson (rs : RecordSet) : Json :=
  .obj [("records", .arr (rs.records.map recToJson))]

def rsFromJson : Json → Option RecordSet
  | .obj [("records", .arr items)] => (recListFromJson items).map RecordSet.mk
  | _ => none

theorem rsFromJson_rsToJson (rs : RecordSet) : rsFromJson (rsToJson rs) = some rs := by
  obtain ⟨records⟩ := rs
  simp [rsToJson, rsFromJson, recListFromJson_map]

/-- `Direction`: two nullary variants, bare strings. -/
def dirToJson : Direction → Json
  | .Asc => .str "Asc"
  | .Desc => .str "Desc"

def dirFromJson : Json → Option Direction
  | .str "Asc" => some .Asc
  | .str "Desc" => some .Desc
  | _ => none

theorem dirFromJson_dirToJson (d : Direction) : dirFromJson (dirToJson d) = some d := by
  cases d <;> rfl

/-- The `(String, Direction)` tuple of `sort_by`: a two-element JSON
array. -/
def sortByToJson (p : String × Direction) : Json :=
  .arr [.str p.1, dirToJson p.2]

def sortByFromJson : Json → Option (String × Direction)
  | .arr [.str s, dj] => (dirFromJson dj).map ((s, ·))
  | _ => none

theorem sortByFromJson_sortByToJson (p : String × Direction) :
    sortByFromJson (sortByToJson p) = some p := by
  obtain ⟨s, d⟩ := p
  cases d <;> rfl

/-- `QueryOptions`: a struct with three optional fields. -/
def qoToJson (o : QueryOptions) : Json :=
  .obj [("sort_by", optToJson sortByToJson o.sort_by),
        ("limit", optToJson natToJson o.limit),
        ("offset", optToJson natToJson o.offset)]

def qoFromJson : Json → Option QueryOptions
  | .obj [("sort_by", sj), ("limit", lj), ("offset", oj)] =>
      match optFromJson sortByFromJson sj with
      | some sb =>
          match optFromJson natFromJson lj with
          | some lim =>
              match optFromJson natFromJson oj with
              | some off => some (QueryOptions.mk sb lim off)
              | none => none
          | none => none
      | none => none
  | _ => none

theorem optFromJson_optToJson_sortBy (sb : Option (String × Direction)) :
    optFromJson sortByFromJson (optToJson sortByToJson sb) = some sb := by
  cases sb with
  | none => rfl
  | some p =>
      obtain ⟨s, d⟩ := p
      rw [optToJson, optFromJson_not_null _ _ (by cases d <;> simp [sortByToJson])]
      simp [sortByFromJson_sortByToJson]

theorem optFromJson_optToJson_nat (n : Option Nat) :
    optFromJson natFromJson (optToJson natToJson n) = some n := by
  cases n with
  | none => rfl
  | some m =>
      rw [optToJson, optFromJson_not_null _ _ (by simp [natToJson])]
      simp [natFromJson_natToJson]

theorem qoFromJson_qoToJson (o : QueryOptions) : qoFromJson (qoToJson o) = some o := by
  obtain ⟨sb, lim, off⟩ := o
  simp [qoToJson, qoFromJson, optFromJson_optToJson_sortBy,
    optFromJson_optToJson_nat]

/-- `DbStats`: a struct with two counter fields. -/
def dbStatsToJson (st : DbStats) : Json :=
  .obj [("collection_count", natToJson st.collection_count),
        ("record_count", natToJson st.record_count)]

def dbStatsFromJson : Json → Option DbStats
  | .obj [("collection_count", cj), ("record_count", rj)] =>
      match natFromJson cj with
      | some c =>
          match natFromJson rj with
          | some r => some (DbStats.mk c r)
          | none => none
      | none => none
  | _ => none

theorem dbStatsFromJson_dbStatsToJson (st : DbStats) :
    dbStatsFromJson (dbStatsToJson st) = some st := by
  obtain ⟨c, r⟩ := st
  simp [dbStatsToJson, dbStatsFromJson, natFromJson_natToJson]

/-- `BatchRequest`: a struct whose one field is a map to two-string
tuples. -/
def brEntryToJson (e : String × (String × String)) : String × Json :=
  (e.1, .arr [.str e.2.1, .str e.2.2])

def brEntriesFromJson : List (String × Json) → Option (List (String × (String × String)))
  | [] => some []
  | (k, .arr [.str c, .str i]) :: es =>
      (brEntriesFromJson es).map ((k, (c, i)) :: ·)
  | _ => none

def brToJson (b : BatchRequest) : Json :=
  .obj [("requests", .obj (b.requests.map brEntryToJson))]

def brFromJson : Json → Option BatchRequest
  | .obj [("requests", .obj kvs)] => (brEntriesFromJson kvs).map BatchRequest.mk
  | _ => none

theorem brEntriesFromJson_map (es : List (String × (String × String))) :
    brEntriesFromJson (es.map brEntryToJson) = some es := by
  induction es with
  | nil => rfl
  | cons e es ih =>
      obtain ⟨k, c, i⟩ := e
      simp [brEntryToJson, brEntriesFromJson, ih]

theorem brFromJson_brToJson (b : BatchRequest) : brFromJson (brToJson b) = some b := by
  obtain ⟨reqs⟩ := b
  simp [brToJson, brFromJson, brEntriesFromJson_map]

/-- `BatchResponse`: a struct whose one field is a map to optional
records (`null` for a miss). -/
def bRespEntryToJson (e : String × Option Record) : String × Json :=
  (e.1, optToJson recToJson e.2)

def bRespEntriesFromJson : List (String × Json) → Option (List (String × Option Record))
  | [] => some []
  | (k, .null) :: es => (bRespEntriesFromJson es).map ((k, none) :: ·)
  | (k, .obj kvs) :: es => (bRespEntriesFromJson es).map ((k, some kvs) :: ·)
  | _ => none

def bRespToJson (b : BatchResponse) : Json :=
  .obj [("results", .obj (b.results.map bRespEntryToJson))]

def bRespFromJson : Json → Option BatchResponse
  | .obj [("results", .obj kvs)] => (bRespEntriesFromJson kvs).map BatchResponse.mk
  | _ => none

theorem bRespEntriesFromJson_map (es : List (String × Option Record)) :
    bRespEntriesFromJson (es.map bRespEntryToJson) = some es := by
  induction es with
  | nil => rfl
  | cons e es ih =>
      obtain ⟨k, rv⟩ := e
      cases rv with
      | none => simp [bRespEntryToJson, bRespEntriesFromJson, optToJson, ih]
      | some rec =>
          simp [bRespEntryToJson, bRespEntriesFromJson, optToJson, recToJson, ih]

theorem bRespFromJson_bRespToJson (b : BatchResponse) :
    bRespFromJson (bRespToJson b) = some b := by
  obtain ⟨res⟩ := b
  simp [bRespToJson, bRespFromJson, bRespEntriesFromJson_map]

/-! `Filter` in JSON form: each variant is a single-key object; struct
variants carry their fields as an object, `And`/`Or` carry an array.
The raw `f64` comparison bound surfaces as a JSON double. -/

mutual

def filterToJson : Filter → Json
  | .Equals field value =>
      .obj [("Equals", .obj [("field", .str field), ("value", value)])]
  | .NotEquals field value =>
      .obj [("NotEquals", .obj [("field", .str field), ("value", value)])]
  | .GreaterThan field value =>
      .obj [("GreaterThan", .obj [("field", .str field), ("value", .double value)])]
  | .LessThan field value =>
      .obj [("LessThan", .obj [("field", .str field), ("value", .double value)])]
  | .In field values =>
      .obj [("In", .obj [("field", .str field), ("values", .arr values)])]
  | .And filters => .obj [("And", .arr (filterListToJson filters))]
  | .Or filters => .obj [("Or", .arr (filterListToJson filters))]

def filterListToJson : List Filter → List Json
  | [] => []
  | f :: fs => filterToJson f :: filterListToJson fs

end

mutual

def filterFromJson : Json → Option Filter
  | .obj [("Equals", .obj [("field", .str field), ("value", v)])] =>
      some (.Equals field v)
  | .obj [("NotEquals", .obj [("field", .str field), ("value", v)])] =>
      some (.NotEquals field v)
  | .obj [("GreaterThan", .obj [("field", .str field), ("value", .double v)])] =>
      some (.GreaterThan field v)
  | .obj [("LessThan", .obj [("field", .str field), ("value", .double v)])] =>
      some (.LessThan field v)
  | .obj [("In", .obj [("field", .str field), ("values", .arr vs)])] =>
      some (.In field vs)
  | .obj [("And", .arr js)] => (filterListFromJson js).map .And
  | .obj [("Or", .arr js)] => (filterListFromJson js).map .Or
  | _ => none

def filterListFromJson : List Json → Option (List Filter)
  | [] => some []
  | j :: js =>
      match filterFromJson j with
      | some f =>
          match filterListFromJson js with
          | some fs => some (f :: fs)
          | none => none
      | none => none

end

theorem filterFromJson_and (js : List Json) :
    filterFromJson (.obj [("And", .arr js)]) = (filterListFromJson js).map .And := rfl

theorem filterFromJson_or (js : List Json) :
    filterFromJson (.obj [("Or", .arr js)]) = (filterListFromJson js).map .Or := rfl

mutual

theorem filterFromJson_filterToJson (f : Filter) :
    filterFromJson (filterToJson f) = some f := by
  cases f with
  | Equals field value => rfl
  | NotEquals field value => rfl
  | GreaterThan field value => rfl
  | LessThan field value => rfl
  | In field values => rfl
  | And filters =>
      have ih := filterListFromJson_filterListToJson filters
      show filterFromJson (.obj [("And", .arr (filterListToJson filters))])
        = some (.And filters)
      rw [filterFromJson_and, ih]
      rfl
  | Or filters =>
      have ih := filterListFromJson_filterListToJson filters
      show filterFromJson (.obj [("Or", .arr (filterListToJson filters))])
        = some (.Or filters)
      rw [filterFromJson_or, ih]
      rfl

theorem filterListFromJson_filterListToJson (fs : List Filter) :
    filterListFromJson (filterListToJson fs) = some fs := by
  cases fs with
  | nil => rfl
  | cons f fs =>
      have ih1 := filterFromJson_filterToJson f
      have ih2 := filterListFromJson_filterListToJson fs
      show filterListFromJson (filterToJson f :: filterListToJson fs)
        = some (f :: fs)
      simp only [filterListFromJson, ih1, ih2]

end

theorem strListFromJson_map (ss : List String) :
    strListFromJson (ss.map .str) = some ss := by
  induction ss with
  | nil => rfl
  | cons s ss ih => simp [strListFromJson, ih]

theorem optFromJson_optToJson_qo (o : Option QueryOptions) :
    optFromJson qoFromJson (optToJson qoToJson o) = some o := by
  cases o with
  | none => rfl
  | some q =>
      rw [optToJson, optFromJson_not_null _ _ (by simp [qoToJson])]
      simp [qoFromJson_qoToJson]

/-! `Request` in JSON form (spec §6.2): nullary variants are bare
variant-name strings; struct variants are single-key objects whose
payload is an object of the fields in declaration order. -/

def reqToJson : Request → Json
  | .CreateDatabase db => .obj [("CreateDatabase", .obj [("db_name", .str db)])]
  | .DropDatabase db => .obj [("DropDatabase", .obj [("db_name", .str db)])]
  | .ListDatabases => .str "ListDatabases"
  | .ListCollections => .str "ListCollections"
  | .CreateCollection db cn =>
      .obj [("CreateCollection", .obj [("db_name", .str db), ("collection_name", .str cn)])]
  | .DropCollection db cn =>
      .obj [("DropCollection", .obj [("db_name", .str db), ("collection_name", .str cn)])]
  | .GetStats => .str "GetStats"
  | .Flush => .str "Flush"
  | .CreateIndex db c fname =>
      .obj [("CreateIndex", .obj [("db_name", .str db), ("collection", .str c),
        ("field_name", .str fname)])]
  | .DropIndex db c fname =>
      .obj [("DropIndex", .obj [("db_name", .str db), ("collection", .str c),
        ("field_name", .str fname)])]
  | .ListIndexes db c =>
      .obj [("ListIndexes", .obj [("db_name", .str db), ("collection", .str c)])]
  | .CreateRecord db c rid data =>
      .obj [("CreateRecord", .obj [("db_name", .str db), ("collection", .str c),
        ("record_id", .str rid), ("data", recToJson data)])]
  | .UpdateRecord db c rid data =>
      .obj [("UpdateRecord", .obj [("db_name", .str db), ("collection", .str c),
        ("record_id", .str rid), ("data", recToJson data)])]
  | .UpsertRecord db c rid data =>
      .obj [("UpsertRecord", .obj [("db_name", .str db), ("collection", .str c),
        ("record_id", .str rid), ("data", recToJson data)])]
  | .GetRecord db c rid =>
      .obj [("GetRecord", .obj [("db_name", .str db), ("collection", .str c),
        ("record_id", .str rid)])]
  | .DeleteRecord db c rid casc =>
      .obj [("DeleteRecord", .obj [("db_name", .str db), ("collection", .str c),
        ("record_id", .str rid), ("cascade", .bool casc)])]
  | .GetLastInsertId => .str "GetLastInsertId"
  | .FindRecords db c fl opts =>
      .obj [("FindRecords", .obj [("db_name", .str db), ("collection", .str c),
        ("filter", filterToJson fl), ("options", optToJson qoToJson opts)])]
  | .CountRecords db c fl =>
      .obj [("CountRecords", .obj [("db_name", .str db), ("collection", .str c),
        ("filter", filterToJson fl)])]
  | .GetRecordWithRelated db pc pid rkf rc =>
      .obj [("GetRecordWithRelated", .obj [("db_name", .str db),
        ("primary_collection", .str pc), ("primary_record_id", .str pid),
        ("relation_key_field", .str rkf), ("related_collection", .str rc)])]
  | .ExecuteBatchGet batch => .obj [("ExecuteBatchGet", brToJson batch)]

def reqFromJson : Json → Option Request
  | .obj [("CreateDatabase", .obj [("db_name", .str db)])] =>
      some (.CreateDatabase db)
  | .obj [("DropDatabase", .obj [("db_name", .str db)])] =>
      some (.DropDatabase db)
  | .str "ListDatabases" => some .ListDatabases
  | .str "ListCollections" => some .ListCollections
  | .obj [("CreateCollection", .obj [("db_name", .str db), ("collection_name", .str cn)])] =>
      some (.CreateCollection db cn)
  | .obj [("DropCollection", .obj [("db_name", .str db), ("collection_name", .str cn)])] =>
      some (.DropCollection db cn)
  | .str "GetStats" => some .GetStats
  | .str "Flush" => some .Flush
  | .obj [("CreateIndex", .obj [("db_name", .str db), ("collection", .str c),
      ("field_name", .str fname)])] =>
      some (.CreateIndex db c fname)
  | .obj [("DropIndex", .obj [("db_name", .str db), ("collection", .str c),
      ("field_name", .str fname)])] =>
      some (.DropIndex db c fname)
  | .obj [("ListIndexes", .obj [("db_name", .str db), ("collection", .str c)])] =>
      some (.ListIndexes db c)
  | .obj [("CreateRecord", .obj [("db_name", .str db), ("collection", .str c),
      ("record_id", .str rid), ("data", .obj kvs)])] =>
      some (.CreateRecord db c rid kvs)
  | .obj [("UpdateRecord", .obj [("db_name", .str db), ("collection", .str c),
      ("record_id", .str rid), ("data", .obj kvs)])] =>
      some (.UpdateRecord db c rid kvs)
  | .obj [("UpsertRecord", .obj [("db_name", .str db), ("collection", .str c),
      ("record_id", .str rid), ("data", .obj kvs)])] =>
      some (.UpsertRecord db c rid kvs)
  | .obj [("GetRecord", .obj [("db_name", .str db), ("collection", .str c),
      ("record_id", .str rid)])] =>
      some (.GetRecord db c rid)
  | .obj [("DeleteRecord", .obj [("db_name", .str db), ("collection", .str c),
      ("record_id", .str rid), ("cascade", .bool casc)])] =>
      some (.DeleteRecord db c rid casc)
  | .str "GetLastInsertId" => some .GetLastInsertId
  | .obj [("FindRecords", .obj [("db_name", .str db), ("collection", .str c),
      ("filter", fj), ("options", oj)])] =>
      match filterFromJson fj with
      | some fl =>
          match optFromJson qoFromJson oj with
          | some opts => some (.FindRecords db c fl opts)
          | none => none
      | none => none
  | .obj [("CountRecords", .obj [("db_name", .str db), ("collection", .str c),
      ("filter", fj)])] =>
      match filterFromJson fj with
      | some fl => some (.CountRecords db c fl)
      | none => none
  | .obj [("GetRecordWithRelated", .obj [("db_name", .str db),
      ("primary_collection", .str pc), ("primary_record_id", .str pid),
      ("relation_key_field", .str rkf), ("related_collection", .str rc)])] =>
      some (.GetRecordWithRelated db pc pid rkf rc)
  | .obj [("ExecuteBatchGet", .obj [("requests", .obj kvs)])] =>
      match brEntriesFromJson kvs with
      | some es => some (.ExecuteBatchGet (BatchRequest.mk es))
      | none => none
  | _ => none

theorem reqFromJson_find (db c : String) (fj oj : Json) :
    reqFromJson (.obj [("FindRecords", .obj [("db_name", .str db),
      ("collection", .str c), ("filter", fj), ("options", oj)])])
    = (match filterFromJson fj with
       | some fl =>
           match optFromJson qoFromJson oj with
           | some opts => some (.FindRecords db c fl opts)
           | none => none
       | none => none) := rfl

theorem reqFromJson_count (db c : String) (fj : Json) :
    reqFromJson (.obj [("CountRecords", .obj [("db_name", .str db),
      ("collection", .str c), ("filter", fj)])])
    = (match filterFromJson fj with
       | some fl => some (.CountRecords db c fl)
       | none => none) := rfl

theorem reqFromJson_batch (kvs : List (String × Json)) :
    reqFromJson (.obj [("ExecuteBatchGet", .obj [("requests", .obj kvs)])])
    = (match brEntriesFromJson kvs with
       | some es => some (.ExecuteBatchGet (BatchRequest.mk es))
       | none => none) := rfl

theorem reqFromJson_reqToJson (r : Request) : reqFromJson (reqToJson r) = some r := by
  cases r with
  | CreateDatabase db => rfl
  | DropDatabase db => rfl
  | ListDatabases => rfl
  | ListCollections => rfl
  | CreateCollection db cn => rfl
  | DropCollection db cn => rfl
  | GetStats => rfl
  | Flush => rfl
  | CreateIndex db c fname => rfl
  | DropIndex db c fname => rfl
  | ListIndexes db c => rfl
  | CreateRecord db c rid data => rfl
  | UpdateRecord db c rid data => rfl
  | UpsertRecord db c rid data => rfl
  | GetRecord db c rid => rfl
  | DeleteRecord db c rid casc => rfl
  | GetLastInsertId => rfl
  | FindRecords db c fl opts =>
      show reqFromJson (.obj [("FindRecords", .obj [("db_name", .str db),
        ("collection", .str c), ("filter", filterToJson fl),
        ("options", optToJson qoToJson opts)])]) = _
      rw [reqFromJson_find, filterFromJson_filterToJson fl,
        optFromJson_optToJson_qo opts]
  | CountRecords db c fl =>
      show reqFromJson (.obj [("CountRecords", .obj [("db_name", .str db),
        ("collection", .str c), ("filter", filterToJson fl)])]) = _
      rw [reqFromJson_count, filterFromJson_filterToJson fl]
  | GetRecordWithRelated db pc pid rkf rc => rfl
  | ExecuteBatchGet batch =>
      obtain ⟨reqs⟩ := batch
      show reqFromJson (.obj [("ExecuteBatchGet",
        .obj [("requests", .obj (reqs.map brEntryToJson))])]) = _
      rw [reqFromJson_batch, brEntriesFromJson_map]

/-! `Response` in JSON form. -/

def qmToJson (m : QueryMetrics) : Json :=
  .obj [("execution_time_micros", natToJson m.execution_time_micros)]

def qmFromJson : Json → Option QueryMetrics
  | .obj [("execution_time_micros", nj)] => (natFromJson nj).map QueryMetrics.mk
  | _ => none

theorem qmFromJson_qmToJson (m : QueryMetrics) : qmFromJson (qmToJson m) = some m := by
  obtain ⟨n⟩ := m
  simp [qmToJson, qmFromJson, natFromJson_natToJson]

def recPairToJson (p : Record × Record) : Json :=
  .arr [recToJson p.1, recToJson p.2]

def recPairFromJson : Json → Option (Record × Record)
  | .arr [.obj a, .obj b] => some (a, b)
  | _ => none

theorem recPairFromJson_recPairToJson (p : Record × Record) :
    recPairFromJson (recPairToJson p) = some p := rfl

theorem optFromJson_optToJson_rec (o : Option Record) :
    optFromJson recFromJson (optToJson recToJson o) = some o := by
  cases o with
  | none => rfl
  | some r => rfl

theorem optFromJson_optToJson_recPair (o : Option (Record × Record)) :
    optFromJson recPairFromJson (optToJson recPairToJson o) = some o := by
  cases o with
  | none => rfl
  | some p => rfl

def respToJson : Response → Json
  | .Success => .str "Success"
  | .Error msg => .obj [("Error", .str msg)]
  | .DatabaseList names => .obj [("DatabaseList", strsToJson names)]
  | .DatabaseCreated b => .obj [("DatabaseCreated", .bool b)]
  | .DatabaseDropped b => .obj [("DatabaseDropped", .bool b)]
  | .CollectionList names => .obj [("CollectionList", strsToJson names)]
  | .Stats st => .obj [("Stats", dbStatsToJson st)]
  | .IndexList names => .obj [("IndexList", strsToJson names)]
  | .Record rec => .obj [("Record", optToJson recToJson rec)]
  | .RecordSet rs => .obj [("RecordSet", rsToJson rs)]
  | .RecordCount n => .obj [("RecordCount", natToJson n)]
  | .RecordDeleted b => .obj [("RecordDeleted", .bool b)]
  | .LastInsertId n => .obj [("LastInsertId", natToJson n)]
  | .RecordWithRelated p => .obj [("RecordWithRelated", optToJson recPairToJson p)]
  | .BatchResponse b => .obj [("BatchResponse", bRespToJson b)]
  | .RecordIdSet ids => .obj [("RecordIdSet", strsToJson ids)]
  | .ResultMetrics data m =>
      .obj [("ResultMetrics", .obj [("data", respToJson data), ("metrics", qmToJson m)])]

def respFromJson : Json → Option Response
  | .str "Success" => some .Success
  | .obj [("Error", .str msg)] => some (.Error msg)
  | .obj [("DatabaseList", .arr items)] =>
      (strListFromJson items).map .DatabaseList
  | .obj [("DatabaseCreated", .bool b)] => some (.DatabaseCreated b)
  | .obj [("DatabaseDropped", .bool b)] => some (.DatabaseDropped b)
  | .obj [("CollectionList", .arr items)] =>
      (strListFromJson items).map .CollectionList
  | .obj [("Stats", sj)] => (dbStatsFromJson sj).map .Stats
  | .obj [("IndexList", .arr items)] =>
      (strListFromJson items).map .IndexList
  | .obj [("Record", rj)] => (optFromJson recFromJson rj).map .Record
  | .obj [("RecordSet", rj)] => (rsFromJson rj).map .RecordSet
  | .obj [("RecordCount", nj)] => (natFromJson nj).map .RecordCount
  | .obj [("RecordDeleted", .bool b)] => some (.RecordDeleted b)
  | .obj [("LastInsertId", nj)] => (natFromJson nj).map .LastInsertId
  | .obj [("RecordWithRelated", pj)] =>
      (optFromJson recPairFromJson pj).map .RecordWithRelated
  | .obj [("BatchResponse", bj)] => (bRespFromJson bj).map .BatchResponse
  | .obj [("RecordIdSet", .arr items)] =>
      (strListFromJson items).map .RecordIdSet
  | .obj [("ResultMetrics", .obj [("data", dj), ("metrics", mj)])] =>
      match respFromJson dj with
      | some data =>
          match qmFromJson mj with
          | some m => some (.ResultMetrics data m)
          | none => none
      | none => none
  | _ => none

theorem respFromJson_dblist (items : List Json) :
    respFromJson (.obj [("DatabaseList", .arr items)])
    = (strListFromJson items).map .DatabaseList := rfl

theorem respFromJson_colllist (items : List Json) :
    respFromJson (.obj [("CollectionList", .arr items)])
    = (strListFromJson items).map .CollectionList := rfl

theorem respFromJson_stats (sj : Json) :
    respFromJson (.obj [("Stats", sj)]) = (dbStatsFromJson sj).map .Stats := rfl

theorem respFromJson_idxlist (items : List Json) :
    respFromJson (.obj [("IndexList", .arr items)])
    = (strListFromJson items).map .IndexList := rfl

theorem respFromJson_record (rj : Json) :
    respFromJson (.obj [("Record", rj)])
    = (optFromJson recFromJson rj).map .Record := rfl

theorem respFromJson_recordset (rj : Json) :
    respFromJson (.obj [("RecordSet", rj)]) = (rsFromJson rj).map .RecordSet := rfl

theorem respFromJson_count (nj : Json) :
    respFromJson (.obj [("RecordCount", nj)]) = (natFromJson nj).map .RecordCount := rfl

theorem respFromJson_lastid (nj : Json) :
    respFromJson (.obj [("LastInsertId", nj)]) = (natFromJson nj).map .LastInsertId := rfl

theorem respFromJson_related (pj : Json) :
    respFromJson (.obj [("RecordWithRelated", pj)])
    = (optFromJson recPairFromJson pj).map .RecordWithRelated := rfl

theorem respFromJson_batch (bj : Json) :
    respFromJson (.obj [("BatchResponse", bj)])
    = (bRespFromJson bj).map .BatchResponse := rfl

theorem respFromJson_idset (items : List Json) :
    respFromJson (.obj [("RecordIdSet", .arr items)])
    = (strListFromJson items).map .RecordIdSet := rfl

theorem respFromJson_metrics (dj mj : Json) :
    respFromJson (.obj [("ResultMetrics", .obj [("data", dj), ("metrics", mj)])])
    = (match respFromJson dj with
       | some data =>
           match qmFromJson mj with
           | some m => some (.ResultMetrics data m)
           | none => none
       | none => none) := rfl

theorem respFromJson_respToJson (r : Response) : respFromJson (respToJson r) = some r := by
  cases r with
  | Success => rfl
  | Error msg => rfl
  | DatabaseList names =>
      show respFromJson (.obj [("DatabaseList", .arr (names.map .str))]) = _
      rw [respFromJson_dblist, strListFromJson_map]
      rfl
  | DatabaseCreated b => rfl
  | DatabaseDropped b => rfl
  | CollectionList names =>
      show respFromJson (.obj [("CollectionList", .arr (names.map .str))]) = _
      rw [respFromJson_colllist, strListFromJson_map]
      rfl
  | Stats st =>
      show respFromJson (.obj [("Stats", dbStatsToJson st)]) = _
      rw [respFromJson_stats, dbStatsFromJson_dbStatsToJson]
      rfl
  | IndexList names =>
      show respFromJson (.obj [("IndexList", .arr (names.map .str))]) = _
      rw [respFromJson_idxlist, strListFromJson_map]
      rfl
  | Record rec =>
      show respFromJson (.obj [("Record", optToJson recToJson rec)]) = _
      rw [respFromJson_record, optFromJson_optToJson_rec]
      rfl
  | RecordSet rs =>
      show respFromJson (.obj [("RecordSet", rsToJson rs)]) = _
      rw [respFromJson_recordset, rsFromJson_rsToJson]
      rfl
  | RecordCount n =>
      show respFromJson (.obj [("RecordCount", natToJson n)]) = _
      rw [respFromJson_count, natFromJson_natToJson]
      rfl
  | RecordDeleted b => rfl
  | LastInsertId n =>
      show respFromJson (.obj [("LastInsertId", natToJson n)]) = _
      rw [respFromJson_lastid, natFromJson_natToJson]
      rfl
  | RecordWithRelated p =>
      show respFromJson (.obj [("RecordWithRelated", optToJson recPairToJson p)]) = _
      rw [respFromJson_related, optFromJson_optToJson_recPair]
      rfl
  | BatchResponse b =>
      show respFromJson (.obj [("BatchResponse", bRespToJson b)]) = _
      rw [respFromJson_batch, bRespFromJson_bRespToJson]
      rfl
  | RecordIdSet ids =>
      show respFromJson (.obj [("RecordIdSet", .arr (ids.map .str))]) = _
      rw [respFromJson_idset, strListFromJson_map]
      rfl
  | ResultMetrics data m =>
      have ih := respFromJson_respToJson data
      show respFromJson (.obj [("ResultMetrics",
        .obj [("data", respToJson data), ("metrics", qmToJson m)])]) = _
      rw [respFromJson_metrics, ih, qmFromJson_qmToJson]

/-! ## Sample values (used by witnesses) -/

def sampleRecord : Record :=
  [("name", .str "John Doe"), ("age", .int 30), ("active", .bool true)]

def sampleRecordSet : RecordSet :=
  ⟨[sampleRecord]⟩

def sampleFilter : Filter :=
  .And [.Equals "active" (.bool true), .GreaterThan "age" 4626322717216342016]

def sampleOptions : QueryOptions :=
  ⟨some ("created_at", .Desc), some 50, some 0⟩

def sampleStats : DbStats :=
  ⟨5, 1000⟩

def sampleBatchRequest : BatchRequest :=
  ⟨[("key1", ("users", "user_1")), ("key2", ("products", "product_1"))]⟩

def sampleBatchResponse : BatchResponse :=
  ⟨[("key1", some sampleRecord), ("key3", none)]⟩

def sampleRequest : Request :=
  .FindRecords "prod" "users" sampleFilter (some sampleOptions)

def sampleResponse : Response :=
  .Record (some sampleRecord)

/-- A filter whose nesting depth is `n + 1`. -/
def deepAnd : Nat → Filter
  | 0 => .Equals "f" .null
  | n + 1 => .And [deepAnd n]

/-- A request whose filter nesting depth (65) exceeds the recommended
bound of 64. -/
def deepRequest : Request :=
  .FindRecords "db" "c" (deepAnd 64) none

/-! ## Checked claims -/

/-- Claim C1: for every well-formed value of each protocol type
(`Request`, `Response`, `Record`, `RecordSet`, `Filter`,
`QueryOptions`, `DbStats`, `BatchRequest`, `BatchResponse`) whose
encoding fits the configured bounds, binary encoding succeeds (the
encoders are total functions) and decoding the canonical binary
encoding yields exactly the original value. -/
theorem C1_binary_roundtrip :
    (∀ (cfg : DecodeCfg) (r : Request), wfRequest r = true →
        reqFDepth r ≤ cfg.max_filter_depth →
        (encRequest r).length ≤ cfg.max_message_size →
        decodeBinaryRequest cfg (encRequest r) = some r)
    ∧ (∀ (cfg : DecodeCfg) (r : Response), wfResponse r = true →
        (encResponse r).length ≤ cfg.max_message_size →
        decodeBinaryResponse cfg (encResponse r) = some r)
    ∧ (∀ (cfg : DecodeCfg) (r : Record), wfRecord r = true →
        (encRecord r).length ≤ cfg.max_message_size →
        decodeBinaryRecord cfg (encRecord r) = some r)
    ∧ (∀ (cfg : DecodeCfg) (rs : RecordSet), wfRecordSet rs = true →
        (encRecordSet rs).length ≤ cfg.max_message_size →
        decodeBinaryRecordSet cfg (encRecordSet rs) = some rs)
    ∧ (∀ (cfg : DecodeCfg) (f : Filter), wfFilter f = true →
        fdepth f ≤ cfg.max_filter_depth →
        (encFilter f).length ≤ cfg.max_message_size →
        decodeBinaryFilter cfg (encFilter f) = some f)
    ∧ (∀ (cfg : DecodeCfg) (o : QueryOptions), wfQueryOptions o = true →
        (encQueryOptions o).length ≤ cfg.max_message_size →
        decodeBinaryQueryOptions cfg (encQueryOptions o) = some o)
    ∧ (∀ (cfg : DecodeCfg) (st : DbStats), wfDbStats st = true →
        (encDbStats st).length ≤ cfg.max_message_size →
        decodeBinaryDbStats cfg (encDbStats st) = some st)
    ∧ (∀ (cfg : DecodeCfg) (b : BatchRequest), wfBatchRequest b = true →
        (encBatchRequest b).length ≤ cfg.max_message_size →
        decodeBinaryBatchRequest cfg (encBatchRequest b) = some b)
    ∧ (∀ (cfg : DecodeCfg) (b : BatchResponse), wfBatchResponse b = true →
        (encBatchResponse b).length ≤ cfg.max_message_size →
        decodeBinaryBatchResponse cfg (encBatchResponse b) = some b) :=
  ⟨decodeBinaryRequest_enc, decodeBinaryResponse_enc, decodeBinaryRecord_enc,
   decodeBinaryRecordSet_enc, decodeBinaryFilter_enc, decodeBinaryQueryOptions_enc,
   decodeBinaryDbStats_enc, decodeBinaryBatchRequest_enc, decodeBinaryBatchResponse_enc⟩

set_option maxRecDepth 100000 in
theorem C1_binary_roundtrip_witness :
    decodeBinaryRequest recommendedCfg (encRequest sampleRequest) = some sampleRequest
    ∧ decodeBinaryResponse recommendedCfg (encResponse sampleResponse) = some sampleResponse
    ∧ decodeBinaryRecord recommendedCfg (encRecord sampleRecord) = some sampleRecord
    ∧ decodeBinaryRecordSet recommendedCfg (encRecordSet sampleRecordSet) = some sampleRecordSet
    ∧ decodeBinaryFilter recommendedCfg (encFilter sampleFilter) = some sampleFilter
    ∧ decodeBinaryQueryOptions recommendedCfg (encQueryOptions sampleOptions) = some sampleOptions
    ∧ decodeBinaryDbStats recommendedCfg (encDbStats sampleStats) = some sampleStats
    ∧ decodeBinaryBatchRequest recommendedCfg (encBatchRequest sampleBatchRequest)
        = some sampleBatchRequest
    ∧ decodeBinaryBatchResponse recommendedCfg (encBatchResponse sampleBatchResponse)
        = some sampleBatchResponse :=
  ⟨C1_binary_roundtrip.1 recommendedCfg sampleRequest (by decide) (by decide) (by decide),
   C1_binary_roundtrip.2.1 recommendedCfg sampleResponse (by decide) (by decide),
   C1_binary_roundtrip.2.2.1 recommendedCfg sampleRecord (by decide) (by decide),
   C1_binary_roundtrip.2.2.2.1 recommendedCfg sampleRecordSet (by decide) (by decide),
   C1_binary_roundtrip.2.2.2.2.1 recommendedCfg sampleFilter (by decide) (by decide) (by decide),
   C1_binary_roundtrip.2.2.2.2.2.1 recommendedCfg sampleOptions (by decide) (by decide),
   C1_binary_roundtrip.2.2.2.2.2.2.1 recommendedCfg sampleStats (by decide) (by decide),
   C1_binary_roundtrip.2.2.2.2.2.2.2.1 recommendedCfg sampleBatchRequest (by decide) (by decide),
   C1_binary_roundtrip.2.2.2.2.2.2.2.2 recommendedCfg sampleBatchResponse (by decide) (by decide)⟩

/-! Claim C2 support: the specification (§3.8) and the repository's own
tests (`src/lib.rs` lines 156–164 and 298–303) give `BatchRequest` *triple*
values `(db_name, collection, record_id)`, while `src/types.rs` line 57
declares the value type as the *pair* `(String, String)`
("Key -> (Collection, Record ID)").  The test code therefore does not
typecheck against the declared type. -/

/-- Modelled from the spec (§3.8), which the tests in `src/lib.rs`
follow: a `BatchRequest` whose correlation keys map to triples
`(db_name, collection, record_id)`. -/
structure BatchRequestSpec where
  requests : List (String × (String × String × String))
deriving Repr

/-- The batch request built by `test_batch_request_serialization`
(`src/lib.rs` lines 157–161). -/
def testBatchTriples : BatchRequestSpec :=
  ⟨[("key1", ("testdb", "users", "user_1")),
    ("key2", ("testdb", "products", "product_1"))]⟩

def brSpecEntryToJson (e : String × (String × String × String)) : String × Json :=
  (e.1, .arr [.str e.2.1, .str e.2.2.1, .str e.2.2.2])

/-- Structural JSON form of the spec-modelled triple `BatchRequest`. -/
def brSpecToJson (b : BatchRequestSpec) : Json :=
  .obj [("requests", .obj (b.requests.map brSpecEntryToJson))]

/-- Claim C2: the claim's triple-valued `BatchRequest` is what the spec
and the repository's tests use, but the `BatchRequest` type declared in
`src/types.rs` stores pairs: each of its entries serializes to a
two-element array, each entry of the tests' triple-valued batch request
to a three-element array, and no value of the declared type produces the
serialized form of the tests' batch request. -/
theorem C2_batch_arity_mismatch :
    (∀ e : String × (String × String),
        (brEntryToJson e).2 = .arr [.str e.2.1, .str e.2.2])
    ∧ (∀ e : String × (String × String × String),
        (brSpecEntryToJson e).2 = .arr [.str e.2.1, .str e.2.2.1, .str e.2.2.2])
    ∧ (∀ b : BatchRequest, brToJson b ≠ brSpecToJson testBatchTriples) := by
  refine ⟨fun e => rfl, fun e => rfl, ?_⟩
  intro b h
  obtain ⟨reqs⟩ := b
  simp only [brToJson, brSpecToJson, Json.obj.injEq, List.cons.injEq,
    Prod.mk.injEq, true_and, and_true] at h
  cases reqs with
  | nil => simp [testBatchTriples, brSpecEntryToJson] at h
  | cons e tail =>
      obtain ⟨k, c, i⟩ := e
      simp [brEntryToJson, testBatchTriples, brSpecEntryToJson] at h

/-- Claim C3: decoding is bound-enforcing.  Any input longer than the
configured maximum message size yields a decode error before any
value is produced, and the canonical encoding of any well-formed
request whose `Filter` nesting depth exceeds the configured maximum
yields a decode error. -/
theorem C3_bound_enforcement :
    (∀ (cfg : DecodeCfg) (bs : List Nat), cfg.max_message_size < bs.length →
        decodeBinaryRequest cfg bs = none)
    ∧ (∀ (cfg : DecodeCfg) (r : Request), wfRequest r = true →
        cfg.max_filter_depth < reqFDepth r →
        decodeBinaryRequest cfg (encRequest r) = none) := by
  constructor
  · intro cfg bs hsz
    unfold decodeBinaryRequest
    rw [if_pos hsz]
  · intro cfg r hwf hfd
    unfold decodeBinaryRequest
    by_cases hsz : cfg.max_message_size < (encRequest r).length
    · rw [if_pos hsz]
    · rw [if_neg hsz]
      have h := decRequest_encRequest_deep r cfg.max_filter_depth
        (encRequest r ++ []).length hwf
        (by
          have h1 := reqJDepth_le_encRequest r
          simp only [List.append_nil]
          omega) hfd []
      rw [show encRequest r = encRequest r ++ [] from (List.append_nil _).symm, h]

set_option maxRecDepth 100000 in
theorem C3_bound_enforcement_witness :
    decodeBinaryRequest ⟨64, 2⟩ [0, 0, 0] = none
    ∧ decodeBinaryRequest recommendedCfg (encRequest deepRequest) = none :=
  ⟨C3_bound_enforcement.1 ⟨64, 2⟩ [0, 0, 0] (by decide),
   C3_bound_enforcement.2 recommendedCfg deepRequest (by decide) (by decide)⟩

/-- Claim C4: every value of the protocol types round-trips through
the structural JSON form unconditionally; in particular the empty
logical combinators `And([])` and `Or([])` are accepted by the codec
and round-trip unchanged. -/
theorem C4_json_roundtrip :
    (∀ r : Request, reqFromJson (reqToJson r) = some r)
    ∧ (∀ r : Response, respFromJson (respToJson r) = some r)
    ∧ (∀ r : Record, recFromJson (recToJson r) = some r)
    ∧ (∀ rs : RecordSet, rsFromJson (rsToJson rs) = some rs)
    ∧ (∀ f : Filter, filterFromJson (filterToJson f) = some f)
    ∧ (∀ o : QueryOptions, qoFromJson (qoToJson o) = some o)
    ∧ (∀ d : Direction, dirFromJson (dirToJson d) = some d)
    ∧ (∀ st : DbStats, dbStatsFromJson (dbStatsToJson st) = some st)
    ∧ (∀ b : BatchRequest, brFromJson (brToJson b) = some b)
    ∧ (∀ b : BatchResponse, bRespFromJson (bRespToJson b) = some b)
    ∧ filterFromJson (filterToJson (.And [])) = some (.And [])
    ∧ filterFromJson (filterToJson (.Or [])) = some (.Or []) :=
  ⟨reqFromJson_reqToJson, respFromJson_respToJson, recFromJson_recToJson,
   rsFromJson_rsToJson, filterFromJson_filterToJson, qoFromJson_qoToJson,
   dirFromJson_dirToJson, dbStatsFromJson_dbStatsToJson, brFromJson_brToJson,
   bRespFromJson_bRespToJson, filterFromJson_filterToJson (.And []),
   filterFromJson_filterToJson (.Or [])⟩

/-- Claim C5: the wire discriminant of each `Request` and `Response`
variant equals its zero-based declaration-order index —
`Request.CreateDatabase = 0` through `Request.ExecuteBatchGet = 20`,
`Response.Success = 0`, `Response.Error = 1`, … ,
`Response.ResultMetrics = 16` — and the binary encoder emits exactly
this discriminant before the variant's payload. -/
theorem C5_discriminant_table :
    (∀ a, requestTag (.CreateDatabase a) = 0)
    ∧ (∀ a, requestTag (.DropDatabase a) = 1)
    ∧ requestTag .ListDatabases = 2
    ∧ requestTag .ListCollections = 3
    ∧ (∀ a b, requestTag (.CreateCollection a b) = 4)
    ∧ (∀ a b, requestTag (.DropCollection a b) = 5)
    ∧ requestTag .GetStats = 6
    ∧ requestTag .Flush = 7
    ∧ (∀ a b c, requestTag (.CreateIndex a b c) = 8)
    ∧ (∀ a b c, requestTag (.DropIndex a b c) = 9)
    ∧ (∀ a b, requestTag (.ListIndexes a b) = 10)
    ∧ (∀ a b c d, requestTag (.CreateRecord a b c d) = 11)
    ∧ (∀ a b c d, requestTag (.UpdateRecord a b c d) = 12)
    ∧ (∀ a b c d, requestTag (.UpsertRecord a b c d) = 13)
    ∧ (∀ a b c, requestTag (.GetRecord a b c) = 14)
    ∧ (∀ a b c d, requestTag (.DeleteRecord a b c d) = 15)
    ∧ requestTag .GetLastInsertId = 16
    ∧ (∀ a b f o, requestTag (.FindRecords a b f o) = 17)
    ∧ (∀ a b f, requestTag (.CountRecords a b f) = 18)
    ∧ (∀ a b c d e, requestTag (.GetRecordWithRelated a b c d e) = 19)
    ∧ (∀ b, requestTag (.ExecuteBatchGet b) = 20)
    ∧ responseTag .Success = 0
    ∧ (∀ a, responseTag (.Error a) = 1)
    ∧ (∀ a, responseTag (.DatabaseList a) = 2)
    ∧ (∀ a, responseTag (.DatabaseCreated a) = 3)
    ∧ (∀ a, responseTag (.DatabaseDropped a) = 4)
    ∧ (∀ a, responseTag (.CollectionList a) = 5)
    ∧ (∀ a, responseTag (.Stats a) = 6)
    ∧ (∀ a, responseTag (.IndexList a) = 7)
    ∧ (∀ a, responseTag (.Record a) = 8)
    ∧ (∀ a, responseTag (.RecordSet a) = 9)
    ∧ (∀ a, responseTag (.RecordCount a) = 10)
    ∧ (∀ a, responseTag (.RecordDeleted a) = 11)
    ∧ (∀ a, responseTag (.LastInsertId a) = 12)
    ∧ (∀ a, responseTag (.RecordWithRelated a) = 13)
    ∧ (∀ a, responseTag (.BatchResponse a) = 14)
    ∧ (∀ a, responseTag (.RecordIdSet a) = 15)
    ∧ (∀ a m, responseTag (.ResultMetrics a m) = 16)
    ∧ (∀ r : Request, encRequest r = encU32 (requestTag r) ++ encRequestPayload r)
    ∧ (∀ r : Response, encResponse r = encU32 (responseTag r) ++ encResponsePayload r) :=
  ⟨fun _ => rfl, fun _ => rfl, rfl, rfl, fun _ _ => rfl, fun _ _ => rfl, rfl, rfl,
   fun _ _ _ => rfl, fun _ _ _ => rfl, fun _ _ => rfl, fun _ _ _ _ => rfl,
   fun _ _ _ _ => rfl, fun _ _ _ _ => rfl, fun _ _ _ => rfl, fun _ _ _ _ => rfl,
   rfl, fun _ _ _ _ => rfl, fun _ _ _ => rfl, fun _ _ _ _ _ => rfl, fun _ => rfl,
   rfl, fun _ => rfl, fun _ => rfl, fun _ => rfl, fun _ => rfl, fun _ => rfl,
   fun _ => rfl, fun _ => rfl, fun _ => rfl, fun _ => rfl, fun _ => rfl,
   fun _ => rfl, fun _ => rfl, fun _ => rfl, fun _ => rfl, fun _ => rfl,
   fun _ _ => rfl, fun _ => rfl, fun _ => rfl⟩

/-- Claim C6: in the structural JSON form every nullary variant of the
tagged unions (`Request`, `Response`, `Direction`) serializes to the
bare string of its variant name; every variant with a payload
serializes to a single-key object whose key is the variant name, with
struct variants carrying an object of their fields. -/
theorem C6_json_variant_shapes :
    reqToJson .ListDatabases = .str "ListDatabases"
    ∧ reqToJson .ListCollections = .str "ListCollections"
    ∧ reqToJson .GetStats = .str "GetStats"
    ∧ reqToJson .Flush = .str "Flush"
    ∧ reqToJson .GetLastInsertId = .str "GetLastInsertId"
    ∧ respToJson .Success = .str "Success"
    ∧ dirToJson .Asc = .str "Asc"
    ∧ dirToJson .Desc = .str "Desc"
    ∧ (∀ a, reqToJson (.CreateDatabase a)
        = .obj [("CreateDatabase", .obj [("db_name", .str a)])])
    ∧ (∀ a, reqToJson (.DropDatabase a)
        = .obj [("DropDatabase", .obj [("db_name", .str a)])])
    ∧ (∀ a b, reqToJson (.CreateCollection a b)
        = .obj [("CreateCollection", .obj [("db_name", .str a),
            ("collection_name", .str b)])])
    ∧ (∀ a b, reqToJson (.DropCollection a b)
        = .obj [("DropCollection", .obj [("db_name", .str a),
            ("collection_name", .str b)])])
    ∧ (∀ a b c, reqToJson (.CreateIndex a b c)
        = .obj [("CreateIndex", .obj [("db_name", .str a), ("collection", .str b),
            ("field_name", .str c)])])
    ∧ (∀ a b c, reqToJson (.DropIndex a b c)
        = .obj [("DropIndex", .obj [("db_name", .str a), ("collection", .str b),
            ("field_name", .str c)])])
    ∧ (∀ a b, reqToJson (.ListIndexes a b)
        = .obj [("ListIndexes", .obj [("db_name", .str a), ("collection", .str b)])])
    ∧ (∀ a b c d, reqToJson (.CreateRecord a b c d)
        = .obj [("CreateRecord", .obj [("db_name", .str a), ("collection", .str b),
            ("record_id", .str c), ("data", recToJson d)])])
    ∧ (∀ a b c d, reqToJson (.UpdateRecord a b c d)
        = .obj [("UpdateRecord", .obj [("db_name", .str a), ("collection", .str b),
            ("record_id", .str c), ("data", recToJson d)])])
    ∧ (∀ a b c d, reqToJson (.UpsertRecord a b c d)
        = .obj [("UpsertRecord", .obj [("db_name", .str a), ("collection", .str b),
            ("record_id", .str c), ("data", recToJson d)])])
    ∧ (∀ a b c, reqToJson (.GetRecord a b c)
        = .obj [("GetRecord", .obj [("db_name", .str a), ("collection", .str b),
            ("record_id", .str c)])])
    ∧ (∀ a b c d, reqToJson (.DeleteRecord a b c d)
        = .obj [("DeleteRecord", .obj [("db_name", .str a), ("collection", .str b),
            ("record_id", .str c), ("cascade", .bool d)])])
    ∧ (∀ a b f o, reqToJson (.FindRecords a b f o)
        = .obj [("FindRecords", .obj [("db_name", .str a), ("collection", .str b),
            ("filter", filterToJson f), ("options", optToJson qoToJson o)])])
    ∧ (∀ a b f, reqToJson (.CountRecords a b f)
        = .obj [("CountRecords", .obj [("db_name", .str a), ("collection", .str b),
            ("filter", filterToJson f)])])
    ∧ (∀ a b c d e, reqToJson (.GetRecordWithRelated a b c d e)
        = .obj [("GetRecordWithRelated", .obj [("db_name", .str a),
            ("primary_collection", .str b), ("primary_record_id", .str c),
            ("relation_key_field", .str d), ("related_collection", .str e)])])
    ∧ (∀ b, reqToJson (.ExecuteBatchGet b) = .obj [("ExecuteBatchGet", brToJson b)])
    ∧ (∀ a, respToJson (.Error a) = .obj [("Error", .str a)])
    ∧ (∀ a, respToJson (.DatabaseList a) = .obj [("DatabaseList", strsToJson a)])
    ∧ (∀ a, respToJson (.DatabaseCreated a) = .obj [("DatabaseCreated", .bool a)])
    ∧ (∀ a, respToJson (.DatabaseDropped a) = .obj [("DatabaseDropped", .bool a)])
    ∧ (∀ a, respToJson (.CollectionList a) = .obj [("CollectionList", strsToJson a)])
    ∧ (∀ a, respToJson (.Stats a) = .obj [("Stats", dbStatsToJson a)])
    ∧ (∀ a, respToJson (.IndexList a) = .obj [("IndexList", strsToJson a)])
    ∧ (∀ a, respToJson (.Record a) = .obj [("Record", optToJson recToJson a)])
    ∧ (∀ a, respToJson (.RecordSet a) = .obj [("RecordSet", rsToJson a)])
    ∧ (∀ a, respToJson (.RecordCount a) = .obj [("RecordCount", natToJson a)])
    ∧ (∀ a, respToJson (.RecordDeleted a) = .obj [("RecordDeleted", .bool a)])
    ∧ (∀ a, respToJson (.LastInsertId a) = .obj [("LastInsertId", natToJson a)])
    ∧ (∀ a, respToJson (.RecordWithRelated a)
        = .obj [("RecordWithRelated", optToJson recPairToJson a)])
    ∧ (∀ a, respToJson (.BatchResponse a) = .obj [("BatchResponse", bRespToJson a)])
    ∧ (∀ a, respToJson (.RecordIdSet a) = .obj [("RecordIdSet", strsToJson a)])
    ∧ (∀ a m, respToJson (.ResultMetrics a m)
        = .obj [("ResultMetrics", .obj [("data", respToJson a),
            ("metrics", qmToJson m)])]) :=
  ⟨rfl, rfl, rfl, rfl, rfl, rfl, rfl, rfl,
   fun _ => rfl, fun _ => rfl, fun _ _ => rfl, fun _ _ => rfl,
   fun _ _ _ => rfl, fun _ _ _ => rfl, fun _ _ => rfl, fun _ _ _ _ => rfl,
   fun _ _ _ _ => rfl, fun _ _ _ _ => rfl, fun _ _ _ => rfl, fun _ _ _ _ => rfl,
   fun _ _ _ _ => rfl, fun _ _ _ => rfl, fun _ _ _ _ _ => rfl, fun _ => rfl,
   fun _ => rfl, fun _ => rfl, fun _ => rfl, fun _ => rfl, fun _ => rfl,
   fun _ => rfl, fun _ => rfl, fun _ => rfl, fun _ => rfl, fun _ => rfl,
   fun _ => rfl, fun _ => rfl, fun _ => rfl, fun _ => rfl, fun _ => rfl,
   fun _ _ => rfl⟩

/-- Claim C7: `Response.Record r` is distinct from `Response.Error s`
for every payload — as values, by discriminant, and as encoded bytes —
and record-not-found is expressible as `Response.Record none`, a value
distinct from every error. -/
theorem C7_record_error_distinct :
    (∀ (s : String) (r : Option Record), Response.Record r ≠ Response.Error s)
    ∧ (∀ (s : String) (r : Option Record),
        responseTag (.Record r) ≠ responseTag (.Error s))
    ∧ (∀ (s : String) (r : Option Record),
        encResponse (.Record r) ≠ encResponse (.Error s))
    ∧ (∀ s : String, Response.Record none ≠ Response.Error s) := by
  refine ⟨?_, ?_, ?_, ?_⟩
  · intro s r h
    cases h
  · intro s r
    simp [responseTag]
  · intro s r h
    simp only [encResponse, responseTag, encResponsePayload, encU32,
      List.cons_append, List.nil_append, List.cons.injEq] at h
    omega
  · intro s h
    cases h

/-- Claim C8: the binary encoder is deterministic — on equal values
(equal map-iteration sequences included) two encoder invocations
produce byte-identical output. -/
theorem C8_encoder_determinism :
    (∀ a b : Request, a = b → encRequest a = encRequest b)
    ∧ (∀ a b : Response, a = b → encResponse a = encResponse b) :=
  ⟨fun a b h => h ▸ rfl, fun a b h => h ▸ rfl⟩

theorem C8_encoder_determinism_witness :
    encRequest sampleRequest = encRequest sampleRequest
    ∧ encResponse sampleResponse = encResponse sampleResponse :=
  ⟨C8_encoder_determinism.1 sampleRequest sampleRequest rfl,
   C8_encoder_determinism.2 sampleResponse sampleResponse rfl⟩

/-- Claim C9: `Response.ResultMetrics` wraps any other response in its
`data` field together with a `metrics` record carrying
`execution_time_micros`; the binary decoder accepts it and it
round-trips like any other response, in both the binary and the
structural JSON form. -/
theorem C9_result_metrics :
    (∀ (cfg : DecodeCfg) (data : Response) (m : QueryMetrics),
        wfResponse (.ResultMetrics data m) = true →
        (encResponse (.ResultMetrics data m)).length ≤ cfg.max_message_size →
        decodeBinaryResponse cfg (encResponse (.ResultMetrics data m))
          = some (.ResultMetrics data m))
    ∧ (∀ (data : Response) (m : QueryMetrics),
        respFromJson (respToJson (.ResultMetrics data m))
          = some (.ResultMetrics data m))
    ∧ (∀ n : Nat, (QueryMetrics.mk n).execution_time_micros = n) :=
  ⟨fun cfg data m hwf hsz => decodeBinaryResponse_enc cfg _ hwf hsz,
   fun data m => respFromJson_respToJson (.ResultMetrics data m),
   fun _ => rfl⟩

set_option maxRecDepth 100000 in
theorem C9_result_metrics_witness :
    decodeBinaryResponse recommendedCfg
      (encResponse (.ResultMetrics (.RecordSet sampleRecordSet) ⟨42⟩))
      = some (.ResultMetrics (.RecordSet sampleRecordSet) ⟨42⟩) :=
  C9_result_metrics.1 recommendedCfg (.RecordSet sampleRecordSet) ⟨42⟩
    (by decide) (by decide)

/-- Claim C10: nothing in the crate enforces the non-empty-field-name
invariant — a `Filter` whose field is the empty string and a `Record`
whose key is the empty string are constructible and round-trip through
both serialization forms without error. -/
theorem C10_empty_names_roundtrip :
    decodeBinaryFilter recommendedCfg (encFilter (.Equals "" .null))
      = some (.Equals "" .null)
    ∧ decodeBinaryRecord recommendedCfg (encRecord [("", .str "v")])
      = some [("", .str "v")]
    ∧ filterFromJson (filterToJson (.Equals "" .null)) = some (.Equals "" .null)
    ∧ recFromJson (recToJson [("", .str "v")]) = some [("", .str "v")] :=
  ⟨decodeBinaryFilter_enc recommendedCfg (.Equals "" .null)
      (by decide) (by decide) (by decide),
   decodeBinaryRecord_enc recommendedCfg [("", .str "v")] (by decide) (by decide),
   filterFromJson_filterToJson (.Equals "" .null),
   rfl⟩

end Aether
